import Mathlib

/-!
Verification of the vcc installer (`main.py`) against its specification.

The installer is a straight-line interactive program.  We embed it shallowly:

* the supervisord configuration template is embedded as a list of tokens
  (`Tok.lit` for literal text, `Tok.ph` for a `\x7bKEY\x7d` placeholder); the
  literal chunks are the source template text verbatim, in order, split
  exactly at the placeholder markers;
* Python's `str.format_map` is embedded as `formatMapToks`, which returns
  `none` when a placeholder key is missing from the map (Python would raise
  `KeyError`);
* the whole run is embedded as a pure function `runCore` from a `World`
  (operator input lines, the secret line read by `getpass`, external-tool
  exit codes, network responses, filesystem facts) to a trace of observable
  events plus the process exit code.  Every failure path of the source
  (`SystemExit`, uncaught exceptions, `EOFError` on closed stdin) ends the
  trace with a line on the error stream and exit code 1, exactly as CPython
  behaves for this program.
-/

set_option maxRecDepth 8000

/-- A token of a Python format template: literal text or a placeholder key. -/
inductive Tok where
  | lit (s : String)
  | ph (k : String)
  deriving DecidableEq, Repr

/-- Does the character list start with the second list? -/
def startsChars : List Char → List Char → Bool
  | _, [] => true
  | [], _ :: _ => false
  | a :: as, b :: bs => (a == b) && startsChars as bs

/-- Does `needle` occur as a contiguous run inside the character list? -/
def occursInChars (needle : List Char) : List Char → Bool
  | [] => needle.isEmpty
  | c :: rest => startsChars (c :: rest) needle || occursInChars needle rest

/-- Substring occurrence on strings. -/
def occursInStr (hay needle : String) : Bool :=
  occursInChars needle.data hay.data

/-- Does the string end with the given text? -/
def endsWithStr (s suf : String) : Bool :=
  startsChars s.data.reverse suf.data.reverse

/-- `bytes[:-1]` of the source, at character level: drop the final character. -/
def dropLastStr (s : String) : String :=
  String.mk s.data.dropLast

/-- Association-list lookup used to model a Python dict of template values. -/
def lookupKey : String → List (String × String) → Option String
  | _, [] => none
  | k, (k2, v) :: rest => if k = k2 then some v else lookupKey k rest

/-- Python `str.format_map` over a tokenised template: every literal chunk is
copied, every placeholder is replaced by the value bound to its key; a key
absent from the map makes the whole substitution fail (Python: `KeyError`). -/
def formatMapToks : List Tok → List (String × String) → Option String
  | [], _ => some ""
  | Tok.lit s :: rest, m =>
    match formatMapToks rest m with
    | some r => some (s ++ r)
    | none => none
  | Tok.ph k :: rest, m =>
    match lookupKey k m, formatMapToks rest m with
    | some v, some r => some (v ++ r)
    | _, _ => none

/-- Does `needle` occur inside some literal chunk of the template?  For a
needle that contains no placeholder marker this coincides with occurrence in
the template text, because a placeholder marker would otherwise have to occur
inside the needle for it to straddle a chunk boundary. -/
def containsTextTok (toks : List Tok) (needle : String) : Bool :=
  toks.any (fun t =>
    match t with
    | Tok.lit s => occursInStr s needle
    | Tok.ph _ => false)

/-- Number of occurrences of placeholder `k` in a template. -/
def phOccurrences (toks : List Tok) (k : String) : Nat :=
  toks.countP (fun t => decide (t = Tok.ph k))

/-- The placeholder keys of a template, with multiplicity. -/
def keysOf : List Tok → List String
  | [] => []
  | Tok.lit _ :: rest => keysOf rest
  | Tok.ph k :: rest => k :: keysOf rest

/-- `supervisord_text` of the source (lines 99-168): the raw Python template
string split at its `\x7bKEY\x7d` placeholders, literal chunks kept verbatim and
in order. -/
def supervisordToks : List Tok :=
  [ Tok.lit "
[unix_http_server]
file=./supervisor.sock

[supervisord]
environment=RPCHOST=\"127.0.0.1:2474\",MINIO_ROOT_USER=\"",
    Tok.ph "MINIO_USER",
    Tok.lit "\",MINIO_ROOT_PASSWORD=\"",
    Tok.ph "MINIO_PASSWORD",
    Tok.lit "\",MINIO_URL=\"",
    Tok.ph "IP",
    Tok.lit ":9000\",MINIO_ACCESS=\"",
    Tok.ph "MINIO_USER",
    Tok.lit "\",MINIO_SECRET=\"",
    Tok.ph "MINIO_PASSWORD",
    Tok.lit "\"
directory=%(here)s

[rpcinterface:supervisor]
supervisor.rpcinterface_factory=supervisor.rpcinterface:make_main_rpcinterface

[supervisorctl]
serverurl=unix://./supervisor.sock

[program:vcc_rpc]
command=",
    Tok.ph "PYTHON_EXECUTABLE",
    Tok.lit " ./vcc_rpc/server/main.py
autorestart=true
priority=10
startretries=3
redirect_stderr=true
stdout_logfile=./log/%(program_name)s.log

[group:services]
programs=login,chat,file,record
priority=20

[program:login]
startsecs=5
command=",
    Tok.ph "PYTHON_EXECUTABLE",
    Tok.lit " ./vcc_rpc/services/login.py
autorestart=true
startretries=3
redirect_stderr=true
stdout_logfile=./log/service_%(program_name)s.log

[program:chat]
startsecs=5
command=",
    Tok.ph "PYTHON_EXECUTABLE",
    Tok.lit " ./vcc_rpc/services/chat.py
autorestart=true
startretries=3
redirect_stderr=true
stdout_logfile=./log/service_%(program_name)s.log

[program:file]
startsecs=5
command=",
    Tok.ph "PYTHON_EXECUTABLE",
    Tok.lit " ./vcc_rpc/services/file.py
autorestart=true
startretries=3
redirect_stderr=true
stdout_logfile=./log/service_%(program_name)s.log

[program:record]
startsecs=5
command=",
    Tok.ph "PYTHON_EXECUTABLE",
    Tok.lit " ./vcc_rpc/services/record.py
autorestart=true
startretries=3
redirect_stderr=true
stdout_logfile=./log/service_%(program_name)s.log

[group:gateways]
programs=web
priority=20

[program:web]
startsecs=5
command=",
    Tok.ph "PYTHON_EXECUTABLE",
    Tok.lit " ./web-vcc/backend/main.py
autorestart=true
startretries=3
redirect_stderr=true
stdout_logfile=./log/gateway_%(program_name)s.log
" ]

/-- `supervisord_minio_text` of the source (lines 170-178).  It contains no
placeholder: it is a single literal chunk. -/
def supervisordMinioToks : List Tok :=
  [ Tok.lit "
[program:minio]
command=./minio server ./data
autorestart=true
priority=10
startretries=3
redirect_stderr=true
stdout_logfile=./log/%(program_name)s.log
" ]

/-- The template used at rendering time: the minio section is appended to the
base template exactly when minio is not already installed (source line 184). -/
def fullTemplate (is_minio_installed : Bool) : List Tok :=
  if is_minio_installed then supervisordToks
  else supervisordToks ++ supervisordMinioToks

/-- The key/value map of source lines 198-203. -/
def substMap (minio_username minio_password minio_hostname executable : String) :
    List (String × String) :=
  [ ("MINIO_USER", minio_username),
    ("MINIO_PASSWORD", minio_password),
    ("IP", minio_hostname),
    ("PYTHON_EXECUTABLE", executable) ]


/-- Observable events of a run, in program order. -/
inductive Event where
  /-- an interactive prompt shown to the operator (written to stdout); the
  tag names the call site, the text is what is displayed -/
  | promptEv (tag : String) (text : String)
  /-- other stdout text -/
  | outLine (s : String)
  /-- stderr text -/
  | errLine (s : String)
  /-- an external process invocation (`subprocess.run`) -/
  | runTool (cmd : List String)
  /-- an HTTPS GET request -/
  | netGet (url : String)
  /-- `Path.mkdir(mode)` -/
  | mkdirEv (path : String) (mode : Nat)
  /-- `os.chdir` -/
  | chdirEv (path : String)
  /-- `Path.touch(mode)`: create the file with the given permission bits -/
  | touchEv (path : String) (mode : Nat)
  /-- `Path.write_bytes` / `Path.write_text` -/
  | writeFileEv (path : String) (content : String)
  deriving DecidableEq, Repr

abbrev Trace := List Event

/-- Events that put text on the operator's output streams (stdout/stderr). -/
def isStream : Event → Bool
  | Event.promptEv _ _ => true
  | Event.outLine _ => true
  | Event.errLine _ => true
  | _ => false

/-- Outcome of the body of a `print_text` step. -/
inductive StepRes where
  | ok
  /-- `SystemExit` raised inside the step; `except Exception` (line 73) does
  not catch it, so it escapes and CPython prints its message to stderr and
  exits with status 1 -/
  | sysExit (msg : String)
  /-- any other exception, caught at line 73 and reported as
  ` ERROR: e=...` on stderr followed by `SystemExit(1)` -/
  | exc (msg : String)
  deriving DecidableEq, Repr

/-- The `print_text` context manager (lines 64-77) around one step: the label
is printed first, then the body runs with its own stdout/stderr discarded; on
success ` OK` is printed; on failure the program terminates with status 1
after a line on the error stream.  The boolean is whether execution
continues past the step. -/
def stepEvents (label : String) (inner : Trace) (r : StepRes) : Trace × Bool :=
  match r with
  | StepRes.ok => (Event.outLine label :: inner ++ [Event.outLine " OK"], true)
  | StepRes.sysExit m => (Event.outLine label :: inner ++ [Event.errLine m], false)
  | StepRes.exc m => (Event.outLine label :: inner ++ [Event.errLine (" ERROR: e=" ++ m)], false)

/-- Exit-status check shared by the tool wrappers: nonzero status raises
`SystemExit(failMsg)`. -/
def toolRes (code : Nat) (failMsg : String) : StepRes :=
  if code = 0 then StepRes.ok else StepRes.sysExit failMsg

/-- `git_clone` (lines 47-50): the invoked command and the step outcome,
given the external tool's exit status. -/
def git_clone (use_ssh : Bool) (project : String) (code : Nat) : Trace × StepRes :=
  ([Event.runTool ["git", "clone",
      if use_ssh then "git@github.com:vcc-chat/" ++ project ++ ".git"
      else "https://github.com/vcc-chat/" ++ project ++ ".git"]],
   toolRes code "git clone failed")

/-- `pip_install` (lines 37-40). -/
def pip_install (executable mod : String) (code : Nat) : Trace × StepRes :=
  ([Event.runTool [executable, "-m", "pip", "install", mod]],
   toolRes code "pip install failed")

/-- `pip_install_requirements` (lines 42-45). -/
def pip_install_requirements (executable file : String) (code : Nat) : Trace × StepRes :=
  ([Event.runTool [executable, "-m", "pip", "install", "-r", file]],
   toolRes code "pip install failed")

/-- `input(promptText)`: display the prompt, read one line; a closed stdin
raises `EOFError`, which nothing in this program catches, so CPython prints a
traceback to stderr and exits with status 1. -/
def inputLine (tag promptText : String) : List String → Trace × Option (String × List String)
  | [] => ([Event.promptEv tag promptText, Event.errLine "EOFError"], none)
  | a :: rest => ([Event.promptEv tag promptText], some (a, rest))

/-- Python `str.lower` at character level (the answers compared against are
ASCII, for which this is exact). -/
def lowerStr (s : String) : String :=
  String.mk (s.data.map Char.toLower)

/-- `yes_or_no_question` (lines 12-19): lower-cased `"y"` answers true,
lower-cased `"n"` or an empty line answers false, anything else prints
`Please enter "y" or "n". ` and asks again. -/
def yes_or_no_question (tag promptText : String) : List String → Trace × Option (Bool × List String)
  | [] => ([Event.promptEv tag (promptText ++ " (y/N): "), Event.errLine "EOFError"], none)
  | a :: rest =>
    if lowerStr a = "y" then
      ([Event.promptEv tag (promptText ++ " (y/N): ")], some (true, rest))
    else if lowerStr a = "n" || lowerStr a = "" then
      ([Event.promptEv tag (promptText ++ " (y/N): ")], some (false, rest))
    else
      let (evs, r) := yes_or_no_question tag promptText rest
      (Event.promptEv tag (promptText ++ " (y/N): ") ::
        Event.outLine "Please enter \"y\" or \"n\". " :: evs, r)

/-- `input_with_default` (lines 21-23): an empty line yields the default
verbatim, any other line is returned unchanged. -/
def input_with_default (tag promptText default : String) (stdin : List String) :
    Trace × Option (String × List String) :=
  match inputLine tag (promptText ++ " [" ++ default ++ "]: ") stdin with
  | (evs, none) => (evs, none)
  | (evs, some (line, rest)) => (evs, some (if line = "" then default else line, rest))

/-- The architecture prompt text of source line 187. -/
def archPromptText : String :=
  "What\x27s your machine\x27s architecture? (Please enter one of \x27amd64\x27, \x27arm64\x27, \x27ppc64le\x27 and \x27s390x\x27): "

/-- The hostname prompt text of source line 196 (the typo is the source's). -/
def hostPromptBase : String :=
  "What\x27s you preferred host name for minio?"

/-- The minio download URL for an operator-typed architecture token
(line 191); the token is embedded with no validation. -/
def minioUrl (architecture : String) : String :=
  "https://dl.min.io/server/minio/release/linux-" ++ architecture ++ "/minio"

/-- Lines 196-212: the hostname prompt, the one-pass template substitution,
writing `supervisord.conf` (created with mode `0o700` before its content is
written), and the final success banner. -/
def stageFinal (is_minio_installed : Bool)
    (install_path executable minio_username minio_password default_public_ip : String)
    (stdin : List String) : Trace × Nat :=
  match input_with_default "minio_hostname" hostPromptBase default_public_ip stdin with
  | (evs, none) => (evs, 1)
  | (evs, some (minio_hostname, _)) =>
    match formatMapToks (fullTemplate is_minio_installed)
        (substMap minio_username minio_password minio_hostname executable) with
    | none => (evs ++ [Event.errLine "KeyError"], 1)
    | some doc =>
      (evs ++ [Event.touchEv (install_path ++ "/supervisord.conf") 448,
               Event.writeFileEv (install_path ++ "/supervisord.conf") doc,
               Event.outLine "Installation success! Run the following commands to start the vcc server: ",
               Event.outLine ("    cd " ++ install_path),
               Event.outLine "    supervisord",
               Event.outLine "    supervisorctl status"], 0)

/-- Lines 185-194 (the `is_minio_installed == False` branch): download the
minio binary unless a regular file named `minio` already exists in the
installation directory, then prompt for new credentials.  `getpass` reads the
secret from the controlling terminal without echo, so it consumes no stdin
line here; its value is the `secretLine` parameter. -/
def stageNotInstalled (install_path executable secretLine : String)
    (minioResult : Except String String) (files : List String)
    (default_public_ip : String) (stdin : List String) : Trace × Nat :=
  let afterDownload := fun (evs : Trace) (stdin2 : List String) =>
    match inputLine "minio_username" "Enter your new username for minio: " stdin2 with
    | (evsU, none) => (evs ++ evsU, 1)
    | (evsU, some (minio_username, stdin3)) =>
      let evsP := [Event.promptEv "minio_password" "Enter your new password for minio: "]
      let (evsF, code) := stageFinal false install_path executable minio_username secretLine
        default_public_ip stdin3
      (evs ++ evsU ++ evsP ++ evsF, code)
  if files.contains "minio" then
    afterDownload [] stdin
  else
    match inputLine "architecture" archPromptText stdin with
    | (evsA, none) => (evsA, 1)
    | (evsA, some (architecture, stdin2)) =>
      let url := minioUrl architecture
      match minioResult with
      | Except.error m =>
        (evsA ++ (stepEvents "Downloading minio..."
          [Event.touchEv (install_path ++ "/minio") 448, Event.netGet url]
          (StepRes.exc m)).1, 1)
      | Except.ok body =>
        let evsD := (stepEvents "Downloading minio..."
          [Event.touchEv (install_path ++ "/minio") 448, Event.netGet url,
           Event.writeFileEv (install_path ++ "/minio") body] StepRes.ok).1
        afterDownload (evsA ++ evsD) stdin2

/-- Lines 94-212: from the storage-preferences prompt to the end of the
program.  `files` is the set of regular-file names present in the freshly
created installation directory when line 186 evaluates
`minio_path.is_file()`; the caller passes the empty list because the
directory was created empty and no earlier step creates a file in it. -/
def stageTail (install_path executable secretLine : String)
    (ipResult minioResult : Except String String) (files : List String)
    (stdin : List String) : Trace × Nat :=
  match yes_or_no_question "is_minio_installed"
      "Have you installed minio and started it already?" stdin with
  | (evsM, none) => (evsM, 1)
  | (evsM, some (is_minio_installed, stdin1)) =>
    match ipResult with
    | Except.error m =>
      (evsM ++ (stepEvents "Getting your public ip address..."
        [Event.netGet "https://checkip.amazonaws.com"] (StepRes.exc m)).1, 1)
    | Except.ok body =>
      let evs0 := evsM ++ (stepEvents "Getting your public ip address..."
        [Event.netGet "https://checkip.amazonaws.com"] StepRes.ok).1
      let default_public_ip := dropLastStr body
      if is_minio_installed then
        let (evsF, code) := stageFinal true install_path executable "" "" default_public_ip stdin1
        (evs0 ++ evsF, code)
      else
        let (evsN, code) := stageNotInstalled install_path executable secretLine minioResult
          files default_public_ip stdin1
        (evs0 ++ evsN, code)

/-- Lines 79-92: the five fail-fast installation steps. -/
def stageSteps (executable : String) (use_ssh : Bool)
    (gitExit pipReqExit pipModExit : String → Nat) : Trace × Bool :=
  let s1 := (fun p => stepEvents "Cloning vcc_rpc..." p.1 p.2)
    (git_clone use_ssh "vcc_rpc" (gitExit "vcc_rpc"))
  if !s1.2 then (s1.1, false) else
  let s2 := (fun p => stepEvents "Installing requirements..." p.1 p.2)
    (pip_install_requirements executable "vcc_rpc/requirements.txt"
      (pipReqExit "vcc_rpc/requirements.txt"))
  if !s2.2 then (s1.1 ++ s2.1, false) else
  let s3 := (fun p => stepEvents "Cloning web-vcc..." p.1 p.2)
    (git_clone use_ssh "web-vcc" (gitExit "web-vcc"))
  if !s3.2 then (s1.1 ++ s2.1 ++ s3.1, false) else
  let s4 := (fun p => stepEvents "Installing requirements..." p.1 p.2)
    (pip_install_requirements executable "web-vcc/backend/requirements.txt"
      (pipReqExit "web-vcc/backend/requirements.txt"))
  if !s4.2 then (s1.1 ++ s2.1 ++ s3.1 ++ s4.1, false) else
  let s5 := (fun p => stepEvents "Installing supervisord..." p.1 p.2)
    (pip_install executable "supervisor" (pipModExit "supervisor"))
  if !s5.2 then (s1.1 ++ s2.1 ++ s3.1 ++ s4.1 ++ s5.1, false) else
  (s1.1 ++ s2.1 ++ s3.1 ++ s4.1 ++ s5.1, true)

/-- The environment a run interacts with: operator input lines, the secret
line read by `getpass`, the home directory, path resolution (`Path.absolute`),
which paths exist, external-tool exit statuses, the interpreter path
(`sys.executable`), the startup platform/version checks, and the two network
responses (`Except.error` models a raised exception). -/
structure World where
  stdin : List String
  secretLine : String
  home : String
  resolveAbs : String → String
  pathExists : String → Bool
  gitExit : String → Nat
  pipReqExit : String → Nat
  pipModExit : String → Nat
  executable : String
  versionOk : Bool
  platformLinux : Bool
  ipResult : Except String String
  minioResult : Except String String

/-- The whole program (`main.py` top to bottom), with every external
dependency passed explicitly.  Returns the event trace and the process exit
status. -/
def runCore (versionOk platformLinux : Bool) (home : String)
    (resolveAbs : String → String) (pathExists : String → Bool)
    (gitExit pipReqExit pipModExit : String → Nat) (executable : String)
    (ipResult minioResult : Except String String) (secretLine : String)
    (stdin : List String) : Trace × Nat :=
  if !versionOk then ([Event.errLine "vcc requires at least python3.10"], 1)
  else if !platformLinux then ([Event.errLine "vcc requires linux"], 1)
  else
    match yes_or_no_question "use_ssh" "Use ssh for git clone?" stdin with
    | (evsS, none) => (evsS, 1)
    | (evsS, some (use_ssh, stdin1)) =>
      let default_path := resolveAbs (home ++ "/.vcc")
      match input_with_default "install_path" "Where do you want to install vcc?"
          default_path stdin1 with
      | (evsP, none) => (evsS ++ evsP, 1)
      | (evsP, some (pathLine, stdin2)) =>
        let install_path := resolveAbs pathLine
        if pathExists install_path then
          (evsS ++ evsP ++ [Event.errLine "vcc has already been installed"], 1)
        else
          let evs0 := evsS ++ evsP ++ [Event.mkdirEv install_path 448, Event.chdirEv install_path]
          let st := stageSteps executable use_ssh gitExit pipReqExit pipModExit
          if !st.2 then (evs0 ++ st.1, 1)
          else
            let (evsT, code) := stageTail install_path executable secretLine ipResult
              minioResult [] stdin2
            (evs0 ++ st.1 ++ evsT, code)

/-- The program run against a `World`. -/
def run (w : World) : Trace × Nat :=
  runCore w.versionOk w.platformLinux w.home w.resolveAbs w.pathExists
    w.gitExit w.pipReqExit w.pipModExit w.executable w.ipResult w.minioResult
    w.secretLine w.stdin

/-- A concrete environment whose installation path already exists. -/
def wDemoExists : World :=
  { stdin := ["y", "/opt/vcc"], secretLine := "s", home := "/root",
    resolveAbs := fun s => s, pathExists := fun _ => true,
    gitExit := fun _ => 0, pipReqExit := fun _ => 0, pipModExit := fun _ => 0,
    executable := "/usr/bin/python3", versionOk := true, platformLinux := true,
    ipResult := Except.ok "1.2.3.4\n", minioResult := Except.ok "B" }

/-- A concrete environment for a completing run that downloads the storage
binary (operator answers that minio is not installed). -/
def wDemoDownload : World :=
  { stdin := ["y", "", "n", "amd64", "admin", ""], secretLine := "pw",
    home := "/root", resolveAbs := fun s => s, pathExists := fun _ => false,
    gitExit := fun _ => 0, pipReqExit := fun _ => 0, pipModExit := fun _ => 0,
    executable := "/usr/bin/python3", versionOk := true, platformLinux := true,
    ipResult := Except.ok "1.2.3.4\n", minioResult := Except.ok "B" }

/-- A concrete environment for a completing run with minio already installed. -/
def wDemoInstalled : World :=
  { stdin := ["y", "", "y", "myhost"], secretLine := "pw",
    home := "/root", resolveAbs := fun s => s, pathExists := fun _ => false,
    gitExit := fun _ => 0, pipReqExit := fun _ => 0, pipModExit := fun _ => 0,
    executable := "/usr/bin/python3", versionOk := true, platformLinux := true,
    ipResult := Except.ok "1.2.3.4\n", minioResult := Except.ok "B" }

/-- Substitution over the full template never leaves a placeholder behind:
every key occurring in the template is bound by the map of lines 198-203, so
Python's `format_map` completes (returns `some`) for every choice of values
and both template variants. -/
theorem formatMapToks_fullTemplate (flag : Bool) (u p h e : String) :
    ∃ s, formatMapToks (fullTemplate flag) (substMap u p h e) = some s := by
  cases flag <;>
    simp [fullTemplate, supervisordToks, supervisordMinioToks, formatMapToks,
      lookupKey, substMap]

/-- Spec-side description of the network-fetch post-processing: strip a
trailing newline from the response body, leave a body without one unchanged. -/
def stripTrailingNewline (s : String) : String :=
  if endsWithStr s "\n" then dropLastStr s else s

/-- C1, counterexample: the claim also asserts that no value is substituted
into more than one location of the document, i.e. that every key occurs at
most once in the base template; but the interpreter-path placeholder occurs
in six program command lines. -/
theorem c1_counterexample :
    ¬ phOccurrences supervisordToks "PYTHON_EXECUTABLE" ≤ 1 := by
  decide

/-- C1, amended: every placeholder occurrence of the base template is
substituted (the substitution completes, leaving no placeholder marker), each
occurrence exactly once, using the key/value map of lines 198-203; but the
same value is written into several locations: the storage username and
password each into two, the preferred hostname into one, and the interpreter
path into six; the appended storage section has no placeholder at all. -/
theorem c1_amended (flag : Bool) (u p h e : String) :
    (∃ s, formatMapToks (fullTemplate flag) (substMap u p h e) = some s) ∧
    phOccurrences supervisordToks "MINIO_USER" = 2 ∧
    phOccurrences supervisordToks "MINIO_PASSWORD" = 2 ∧
    phOccurrences supervisordToks "IP" = 1 ∧
    phOccurrences supervisordToks "PYTHON_EXECUTABLE" = 6 ∧
    (∀ k, phOccurrences supervisordMinioToks k = 0) := by
  refine ⟨formatMapToks_fullTemplate flag u p h e, by decide, by decide, by decide, by decide, ?_⟩
  intro k
  rfl

/-- C2: for both values of the storage-already-installed flag the rendered
configuration has no unsubstituted placeholder (the substitution completes
for every choice of values), and the template that is rendered contains the
`[program:minio]` storage-service section exactly when the flag is false. -/
theorem c2_rendered (flag : Bool) (u p h e : String) :
    (∃ s, formatMapToks (fullTemplate flag) (substMap u p h e) = some s) ∧
    containsTextTok (fullTemplate flag) "[program:minio]" = !flag := by
  refine ⟨formatMapToks_fullTemplate flag u p h e, ?_⟩
  cases flag <;> decide

/-- C7, counterexample: the code computes the default host value as
`data[:-1]`, which drops the final character unconditionally; on a response
body with no trailing newline this differs from stripping a trailing
newline. -/
theorem c7_counterexample :
    ¬ dropLastStr "93.184.216.34" = stripTrailingNewline "93.184.216.34" := by
  decide

/-- C7, amended: the default host value equals the response body with its
final character removed; when the body ends with a newline — the shape the
IP-echo endpoint actually returns — this coincides with stripping the
trailing newline, but a body without one loses its last character. -/
theorem c7_amended (body : String) (h : endsWithStr body "\n" = true) :
    dropLastStr body = stripTrailingNewline body := by
  simp [stripTrailingNewline, h]

/-- C7, witness: the amended statement at a concrete newline-terminated body. -/
theorem c7_witness :
    endsWithStr "93.184.216.34\n" "\n" = true ∧
    dropLastStr "93.184.216.34\n" = stripTrailingNewline "93.184.216.34\n" :=
  ⟨by decide, c7_amended "93.184.216.34\n" (by decide)⟩

/-- Every event emitted by the yes/no prompt loop goes to an output stream. -/
theorem yn_stream (tag p : String) : ∀ (stdin : List String) (evs : Trace)
    (r : Option (Bool × List String)),
    yes_or_no_question tag p stdin = (evs, r) → ∀ e ∈ evs, isStream e = true := by
  intro stdin
  induction stdin with
  | nil =>
    intro evs r h e he
    simp only [yes_or_no_question] at h
    injection h with h1 h2
    subst h1
    simp only [List.mem_cons, List.mem_singleton] at he
    rcases he with rfl | rfl | he
    · rfl
    · rfl
    · exact absurd he (List.not_mem_nil e)
  | cons a rest ih =>
    intro evs r h e he
    simp only [yes_or_no_question] at h
    split at h
    · injection h with h1 h2
      subst h1
      simp only [List.mem_singleton] at he
      subst he
      rfl
    · split at h
      · injection h with h1 h2
        subst h1
        simp only [List.mem_singleton] at he
        subst he
        rfl
      · rcases hrec : yes_or_no_question tag p rest with ⟨evs2, r2⟩
        rw [hrec] at h
        injection h with h1 h2
        subst h1
        simp only [List.mem_cons] at he
        rcases he with rfl | rfl | he
        · rfl
        · rfl
        · exact ih evs2 r2 hrec e he

/-- When the yes/no loop returns an answer, it has written nothing to the
error stream. -/
theorem yn_some_noErr (tag p : String) : ∀ (stdin : List String) (evs : Trace)
    (b : Bool) (rest : List String),
    yes_or_no_question tag p stdin = (evs, some (b, rest)) →
    ∀ m, Event.errLine m ∉ evs := by
  intro stdin
  induction stdin with
  | nil =>
    intro evs b rest h m
    simp only [yes_or_no_question] at h
    injection h with h1 h2
    exact Option.noConfusion h2
  | cons a rest0 ih =>
    intro evs b rest h m
    simp only [yes_or_no_question] at h
    split at h
    · injection h with h1 h2
      subst h1
      simp
    · split at h
      · injection h with h1 h2
        subst h1
        simp
      · rcases hrec : yes_or_no_question tag p rest0 with ⟨evs2, r2⟩
        rw [hrec] at h
        injection h with h1 h2
        subst h1
        subst h2
        intro hmem
        simp only [List.mem_cons] at hmem
        rcases hmem with heq | heq | hmem
        · exact Event.noConfusion heq
        · exact Event.noConfusion heq
        · exact ih evs2 b rest hrec m hmem

/-- When the yes/no loop hits end-of-input, its trace ends with the error
line of the uncaught `EOFError`. -/
theorem yn_none_ends (tag p : String) : ∀ (stdin : List String) (evs : Trace),
    yes_or_no_question tag p stdin = (evs, none) →
    ∃ t m, evs = t ++ [Event.errLine m] := by
  intro stdin
  induction stdin with
  | nil =>
    intro evs h
    simp only [yes_or_no_question] at h
    injection h with h1 h2
    subst h1
    exact ⟨[Event.promptEv tag (p ++ " (y/N): ")], "EOFError", rfl⟩
  | cons a rest ih =>
    intro evs h
    simp only [yes_or_no_question] at h
    split at h
    · injection h with h1 h2
      exact Option.noConfusion h2
    · split at h
      · injection h with h1 h2
        exact Option.noConfusion h2
      · rcases hrec : yes_or_no_question tag p rest with ⟨evs2, r2⟩
        rw [hrec] at h
        injection h with h1 h2
        subst h1
        subst h2
        obtain ⟨t, m, ht⟩ := ih evs2 hrec
        exact ⟨Event.promptEv tag (p ++ " (y/N): ") ::
          Event.outLine "Please enter \"y\" or \"n\". " :: t, m, by simp [ht]⟩

/-- C5: when the resolved installation path already exists, the run stops at
the directory-creation step with exit status 1 after printing the
already-installed message to the error stream; the whole trace consists of
stream events only — no external tool, no network request, no directory
creation, no file creation or write has happened, so the existing path is
untouched. -/
theorem c5_abort_on_existing (w : World) (evsS : Trace) (use_ssh : Bool)
    (line : String) (stdin1 stdin2 : List String)
    (hv : w.versionOk = true) (hp : w.platformLinux = true)
    (hyn : yes_or_no_question "use_ssh" "Use ssh for git clone?" w.stdin
      = (evsS, some (use_ssh, stdin1)))
    (hline : stdin1 = line :: stdin2)
    (hex : w.pathExists (w.resolveAbs
      (if line = "" then w.resolveAbs (w.home ++ "/.vcc") else line)) = true) :
    (run w).2 = 1 ∧
    (run w).1 = evsS ++
      [Event.promptEv "install_path"
        ("Where do you want to install vcc? [" ++ w.resolveAbs (w.home ++ "/.vcc") ++ "]: "),
       Event.errLine "vcc has already been installed"] ∧
    ∀ e ∈ (run w).1, isStream e = true := by
  have hrun : run w = (evsS ++
      [Event.promptEv "install_path"
        ("Where do you want to install vcc? [" ++ w.resolveAbs (w.home ++ "/.vcc") ++ "]: "),
       Event.errLine "vcc has already been installed"], 1) := by
    simp only [run, runCore, hv, hp, hyn, hline, input_with_default, inputLine,
      Bool.not_true, Bool.false_eq_true, if_false]
    rw [hex]
    simp
  refine ⟨by rw [hrun], by rw [hrun], ?_⟩
  rw [hrun]
  intro e he
  simp only [List.mem_append, List.mem_cons, List.mem_singleton] at he
  rcases he with he | rfl | rfl | he
  · exact yn_stream "use_ssh" "Use ssh for git clone?" w.stdin evsS _ hyn e he
  · rfl
  · rfl
  · exact absurd he (List.not_mem_nil e)

/-- C5, witness: a concrete world whose resolved installation path exists. -/
theorem c5_witness : (run wDemoExists).2 = 1 :=
  (c5_abort_on_existing wDemoExists
    [Event.promptEv "use_ssh" "Use ssh for git clone? (y/N): "]
    true "/opt/vcc" ["/opt/vcc"] [] rfl rfl (by decide) rfl (by decide)).1

/-- The trace of the five installation steps when every tool exits with
status 0. -/
def stepsOkTrace (executable : String) (use_ssh : Bool) : Trace :=
  [Event.outLine "Cloning vcc_rpc...",
   Event.runTool ["git", "clone",
     if use_ssh then "git@github.com:vcc-chat/vcc_rpc.git"
     else "https://github.com/vcc-chat/vcc_rpc.git"],
   Event.outLine " OK",
   Event.outLine "Installing requirements...",
   Event.runTool [executable, "-m", "pip", "install", "-r", "vcc_rpc/requirements.txt"],
   Event.outLine " OK",
   Event.outLine "Cloning web-vcc...",
   Event.runTool ["git", "clone",
     if use_ssh then "git@github.com:vcc-chat/web-vcc.git"
     else "https://github.com/vcc-chat/web-vcc.git"],
   Event.outLine " OK",
   Event.outLine "Installing requirements...",
   Event.runTool [executable, "-m", "pip", "install", "-r", "web-vcc/backend/requirements.txt"],
   Event.outLine " OK",
   Event.outLine "Installing supervisord...",
   Event.runTool [executable, "-m", "pip", "install", "supervisor"],
   Event.outLine " OK"]

/-- With all five tools succeeding, the step stage succeeds with the
concrete trace above. -/
theorem stageSteps_ok (executable : String) (use_ssh : Bool)
    (gitExit pipReqExit pipModExit : String → Nat)
    (hg1 : gitExit "vcc_rpc" = 0)
    (hr1 : pipReqExit "vcc_rpc/requirements.txt" = 0)
    (hg2 : gitExit "web-vcc" = 0)
    (hr2 : pipReqExit "web-vcc/backend/requirements.txt" = 0)
    (hm : pipModExit "supervisor" = 0) :
    stageSteps executable use_ssh gitExit pipReqExit pipModExit
      = (stepsOkTrace executable use_ssh, true) := by
  simp [stageSteps, git_clone, pip_install, pip_install_requirements, toolRes,
    stepEvents, stepsOkTrace, hg1, hr1, hg2, hr2, hm]

/-- A run that passes the startup checks and the prompts, whose resolved
installation path does not exist, and whose five external tools all exit
with status 0, reaches the storage stage: its trace is the successful prefix
followed by the tail trace, and its exit status is the tail's. -/
theorem run_reaches_tail (w : World) (evsS : Trace) (use_ssh : Bool)
    (line instPath : String) (stdin2 : List String)
    (hv : w.versionOk = true) (hp : w.platformLinux = true)
    (hyn : yes_or_no_question "use_ssh" "Use ssh for git clone?" w.stdin
      = (evsS, some (use_ssh, line :: stdin2)))
    (hip : instPath = w.resolveAbs
      (if line = "" then w.resolveAbs (w.home ++ "/.vcc") else line))
    (hex : w.pathExists instPath = false)
    (hg1 : w.gitExit "vcc_rpc" = 0)
    (hr1 : w.pipReqExit "vcc_rpc/requirements.txt" = 0)
    (hg2 : w.gitExit "web-vcc" = 0)
    (hr2 : w.pipReqExit "web-vcc/backend/requirements.txt" = 0)
    (hm : w.pipModExit "supervisor" = 0) :
    run w = (evsS ++
      Event.promptEv "install_path"
        ("Where do you want to install vcc? [" ++ w.resolveAbs (w.home ++ "/.vcc") ++ "]: ") ::
      Event.mkdirEv instPath 448 :: Event.chdirEv instPath ::
      (stepsOkTrace w.executable use_ssh ++
        (stageTail instPath w.executable w.secretLine w.ipResult w.minioResult [] stdin2).1),
      (stageTail instPath w.executable w.secretLine w.ipResult w.minioResult [] stdin2).2) := by
  subst hip
  rcases h : stageTail
    (w.resolveAbs (if line = "" then w.resolveAbs (w.home ++ "/.vcc") else line))
    w.executable w.secretLine w.ipResult w.minioResult [] stdin2 with ⟨evsT, code⟩
  simp only [run, runCore, hv, hp, hyn, input_with_default, inputLine, Bool.not_true,
    Bool.false_eq_true, if_false,
    stageSteps_ok w.executable use_ssh w.gitExit w.pipReqExit w.pipModExit hg1 hr1 hg2 hr2 hm,
    hex, h]
  simp

/-- In the storage-not-installed branch with an empty installation directory,
the architecture prompt, the mode-0700 creation of the binary file, and the
download request all occur, whatever the download outcome and the remaining
input. -/
theorem stageNotInstalled_download (instPath exe secret : String)
    (mR : Except String String) (dpip arch : String) (stdin4 : List String) :
    Event.promptEv "architecture" archPromptText
        ∈ (stageNotInstalled instPath exe secret mR [] dpip (arch :: stdin4)).1 ∧
    Event.touchEv (instPath ++ "/minio") 448
        ∈ (stageNotInstalled instPath exe secret mR [] dpip (arch :: stdin4)).1 ∧
    Event.netGet (minioUrl arch)
        ∈ (stageNotInstalled instPath exe secret mR [] dpip (arch :: stdin4)).1 := by
  cases mR with
  | error m =>
    simp [stageNotInstalled, inputLine, stepEvents]
  | ok body =>
    cases stdin4 with
    | nil =>
      simp [stageNotInstalled, inputLine, stepEvents]
    | cons u rest =>
      rcases hF : stageFinal false instPath exe u secret dpip rest with ⟨evsF, codeF⟩
      simp [stageNotInstalled, inputLine, stepEvents, hF]

/-- Reduction of the tail when the operator answers that minio is not yet
installed and the public-IP fetch succeeds. -/
theorem stageTail_notInstalled (instPath exe secret : String)
    (mR : Except String String) (evsM : Trace) (stdin2 stdin3 : List String)
    (body : String)
    (hynM : yes_or_no_question "is_minio_installed"
      "Have you installed minio and started it already?" stdin2
      = (evsM, some (false, stdin3))) :
    stageTail instPath exe secret (Except.ok body) mR [] stdin2
      = (evsM ++ (Event.outLine "Getting your public ip address..." ::
          Event.netGet "https://checkip.amazonaws.com" :: Event.outLine " OK" ::
          (stageNotInstalled instPath exe secret mR [] (dropLastStr body) stdin3).1),
        (stageNotInstalled instPath exe secret mR [] (dropLastStr body) stdin3).2) := by
  rcases h : stageNotInstalled instPath exe secret mR [] (dropLastStr body) stdin3
    with ⟨evsN, code⟩
  simp [stageTail, hynM, stepEvents, h]

/-- Reduction of the tail when the operator answers that minio is already
installed and the public-IP fetch succeeds. -/
theorem stageTail_installed (instPath exe secret : String)
    (mR : Except String String) (evsM : Trace) (stdin2 stdin3 : List String)
    (body : String)
    (hynM : yes_or_no_question "is_minio_installed"
      "Have you installed minio and started it already?" stdin2
      = (evsM, some (true, stdin3))) :
    stageTail instPath exe secret (Except.ok body) mR [] stdin2
      = (evsM ++ (Event.outLine "Getting your public ip address..." ::
          Event.netGet "https://checkip.amazonaws.com" :: Event.outLine " OK" ::
          (stageFinal true instPath exe "" "" (dropLastStr body) stdin3).1),
        (stageFinal true instPath exe "" "" (dropLastStr body) stdin3).2) := by
  rcases h : stageFinal true instPath exe "" "" (dropLastStr body) stdin3 with ⟨evsF, code⟩
  simp [stageTail, hynM, stepEvents, h]

/-- C9: in every run in which the operator answers that storage is not
already installed, the architecture prompt and the binary download occur:
the installation directory was created empty earlier in the same run and no
prior step creates a file named `minio` inside it, so the guard at line 186
can never skip the download. -/
theorem c9_download_always (w : World) (evsS evsM : Trace) (use_ssh : Bool)
    (line instPath arch body : String) (stdin2 stdin3 stdin4 : List String)
    (hv : w.versionOk = true) (hp : w.platformLinux = true)
    (hyn : yes_or_no_question "use_ssh" "Use ssh for git clone?" w.stdin
      = (evsS, some (use_ssh, line :: stdin2)))
    (hip : instPath = w.resolveAbs
      (if line = "" then w.resolveAbs (w.home ++ "/.vcc") else line))
    (hex : w.pathExists instPath = false)
    (hg1 : w.gitExit "vcc_rpc" = 0)
    (hr1 : w.pipReqExit "vcc_rpc/requirements.txt" = 0)
    (hg2 : w.gitExit "web-vcc" = 0)
    (hr2 : w.pipReqExit "web-vcc/backend/requirements.txt" = 0)
    (hm : w.pipModExit "supervisor" = 0)
    (hynM : yes_or_no_question "is_minio_installed"
      "Have you installed minio and started it already?" stdin2
      = (evsM, some (false, stdin3)))
    (hipres : w.ipResult = Except.ok body)
    (harch : stdin3 = arch :: stdin4) :
    Event.promptEv "architecture" archPromptText ∈ (run w).1 ∧
    Event.touchEv (instPath ++ "/minio") 448 ∈ (run w).1 ∧
    Event.netGet (minioUrl arch) ∈ (run w).1 := by
  subst harch
  have hrt := run_reaches_tail w evsS use_ssh line instPath stdin2 hv hp hyn hip hex
    hg1 hr1 hg2 hr2 hm
  rw [hipres, stageTail_notInstalled instPath w.executable w.secretLine w.minioResult
    evsM stdin2 (arch :: stdin4) body hynM] at hrt
  obtain ⟨h1, h2, h3⟩ := stageNotInstalled_download instPath w.executable w.secretLine
    w.minioResult (dropLastStr body) arch stdin4
  rw [hrt]
  refine ⟨?_, ?_, ?_⟩ <;>
    simp only [List.mem_append, List.mem_cons] <;> tauto

/-- C9, witness: a concrete full run with the storage-not-installed answer. -/
theorem c9_witness :
    Event.netGet (minioUrl "amd64") ∈ (run wDemoDownload).1 :=
  (c9_download_always wDemoDownload
    [Event.promptEv "use_ssh" "Use ssh for git clone? (y/N): "]
    [Event.promptEv "is_minio_installed"
      "Have you installed minio and started it already? (y/N): "]
    true "" "/root/.vcc" "amd64" "1.2.3.4\n" ["n", "amd64", "admin", ""]
    ["amd64", "admin", ""] ["admin", ""]
    rfl rfl (by decide) (by decide) rfl rfl rfl rfl rfl rfl (by decide) rfl rfl).2.2

/-- Appending different suffixes to the same string gives different strings. -/
theorem string_append_right_ne (a : String) {b c : String} (h : b ≠ c) :
    a ++ b ≠ a ++ c := by
  intro e
  apply h
  have hd : a.data ++ b.data = a.data ++ c.data := congrArg String.data e
  have hbc := List.append_cancel_left hd
  cases b
  cases c
  exact congrArg String.mk (by simpa using hbc)

/-- The final stage touches no path other than the configuration file. -/
theorem stageFinal_touch_paths (flag : Bool) (instPath exe u p dpip path2 : String)
    (stdin : List String)
    (hne : path2 ≠ instPath ++ "/supervisord.conf") :
    ∀ mo, Event.touchEv path2 mo ∉ (stageFinal flag instPath exe u p dpip stdin).1 := by
  intro mo hmem
  obtain ⟨doc, hdoc⟩ := formatMapToks_fullTemplate flag u p
    (match stdin with | [] => dpip | a :: _ => if a = "" then dpip else a) exe
  cases stdin with
  | nil =>
    simp [stageFinal, input_with_default, inputLine] at hmem
  | cons a rest =>
    simp [stageFinal, input_with_default, inputLine, hdoc] at hmem
    exact hne hmem.1

/-- Event order of the download step: the binary file is created with mode
`0o700` first, the download request follows, the response body is written
after that, and no later event touches the binary file again. -/
theorem stageNotInstalled_order (instPath exe secret mbody dpip arch : String)
    (stdin4 : List String) :
    ∃ t₂ t₃,
      (stageNotInstalled instPath exe secret (Except.ok mbody) [] dpip (arch :: stdin4)).1
        = Event.promptEv "architecture" archPromptText ::
          Event.outLine "Downloading minio..." ::
          Event.touchEv (instPath ++ "/minio") 448 :: t₂ ++
          Event.writeFileEv (instPath ++ "/minio") mbody :: t₃ ∧
      t₂ = [Event.netGet (minioUrl arch)] ∧
      (∀ mo, Event.touchEv (instPath ++ "/minio") mo ∉ t₃) := by
  have hne : instPath ++ "/minio" ≠ instPath ++ "/supervisord.conf" :=
    string_append_right_ne instPath (by decide)
  cases stdin4 with
  | nil =>
    refine ⟨[Event.netGet (minioUrl arch)],
      [Event.outLine " OK",
       Event.promptEv "minio_username" "Enter your new username for minio: ",
       Event.errLine "EOFError"], ?_, rfl, ?_⟩
    · simp [stageNotInstalled, inputLine, stepEvents]
    · intro mo
      simp
  | cons u rest =>
    rcases hF : stageFinal false instPath exe u secret dpip rest with ⟨evsF, codeF⟩
    refine ⟨[Event.netGet (minioUrl arch)],
      Event.outLine " OK" ::
      Event.promptEv "minio_username" "Enter your new username for minio: " ::
      Event.promptEv "minio_password" "Enter your new password for minio: " :: evsF,
      ?_, rfl, ?_⟩
    · simp [stageNotInstalled, inputLine, stepEvents, hF]
    · intro mo hmem
      simp only [List.mem_cons] at hmem
      rcases hmem with h | h | h | h
      · exact Event.noConfusion h
      · exact Event.noConfusion h
      · exact Event.noConfusion h
      · have := stageFinal_touch_paths false instPath exe u secret dpip
          (instPath ++ "/minio") rest hne mo
        rw [hF] at this
        exact this h

/-- C8: whenever the storage binary is downloaded, the target file is
created with owner-only permission bits (mode `0o700`) before the response
content is written to it — between creation and write only the download
request itself happens — and no event sets the file's permission bits after
the content write. -/
theorem c8_touch_before_write (w : World) (evsS evsM : Trace) (use_ssh : Bool)
    (line instPath arch body mbody : String) (stdin2 stdin3 stdin4 : List String)
    (hv : w.versionOk = true) (hp : w.platformLinux = true)
    (hyn : yes_or_no_question "use_ssh" "Use ssh for git clone?" w.stdin
      = (evsS, some (use_ssh, line :: stdin2)))
    (hip : instPath = w.resolveAbs
      (if line = "" then w.resolveAbs (w.home ++ "/.vcc") else line))
    (hex : w.pathExists instPath = false)
    (hg1 : w.gitExit "vcc_rpc" = 0)
    (hr1 : w.pipReqExit "vcc_rpc/requirements.txt" = 0)
    (hg2 : w.gitExit "web-vcc" = 0)
    (hr2 : w.pipReqExit "web-vcc/backend/requirements.txt" = 0)
    (hm : w.pipModExit "supervisor" = 0)
    (hynM : yes_or_no_question "is_minio_installed"
      "Have you installed minio and started it already?" stdin2
      = (evsM, some (false, stdin3)))
    (hipres : w.ipResult = Except.ok body)
    (harch : stdin3 = arch :: stdin4)
    (hmin : w.minioResult = Except.ok mbody) :
    ∃ t₁ t₂ t₃,
      (run w).1 = t₁ ++ Event.touchEv (instPath ++ "/minio") 448 :: t₂ ++
        Event.writeFileEv (instPath ++ "/minio") mbody :: t₃ ∧
      (∀ c, Event.writeFileEv (instPath ++ "/minio") c ∉ t₁) ∧
      t₂ = [Event.netGet (minioUrl arch)] ∧
      (∀ mo, Event.touchEv (instPath ++ "/minio") mo ∉ t₃) := by
  subst harch
  have hrt := run_reaches_tail w evsS use_ssh line instPath stdin2 hv hp hyn hip hex
    hg1 hr1 hg2 hr2 hm
  rw [hipres, stageTail_notInstalled instPath w.executable w.secretLine w.minioResult
    evsM stdin2 (arch :: stdin4) body hynM, hmin] at hrt
  obtain ⟨t₂, t₃, hdec, ht₂, ht₃⟩ := stageNotInstalled_order instPath w.executable
    w.secretLine mbody (dropLastStr body) arch stdin4
  rw [hdec] at hrt
  refine ⟨evsS ++ Event.promptEv "install_path"
      ("Where do you want to install vcc? [" ++ w.resolveAbs (w.home ++ "/.vcc") ++ "]: ") ::
      Event.mkdirEv instPath 448 :: Event.chdirEv instPath ::
      (stepsOkTrace w.executable use_ssh ++ (evsM ++
        [Event.outLine "Getting your public ip address...",
         Event.netGet "https://checkip.amazonaws.com", Event.outLine " OK",
         Event.promptEv "architecture" archPromptText,
         Event.outLine "Downloading minio..."])), t₂, t₃, ?_, ?_, ht₂, ht₃⟩
  · rw [hrt]
    simp [List.append_assoc]
  · intro c hc
    simp only [List.mem_append, List.mem_cons] at hc
    rcases hc with hc | hc | hc | hc | hc
    · have := yn_stream "use_ssh" "Use ssh for git clone?" w.stdin evsS _ hyn _ hc
      simp [isStream] at this
    · exact Event.noConfusion hc
    · exact Event.noConfusion hc
    · exact Event.noConfusion hc
    · rcases hc with hc | hc
      · simp [stepsOkTrace] at hc
      · rcases hc with hc | hc
        · have := yn_stream "is_minio_installed"
            "Have you installed minio and started it already?" stdin2 evsM _ hynM _ hc
          simp [isStream] at this
        · simp at hc

/-- C8, witness: the decomposition at a concrete downloading run. -/
theorem c8_witness :
    ∃ t₁ t₂ t₃,
      (run wDemoDownload).1
        = t₁ ++ Event.touchEv ("/root/.vcc" ++ "/minio") 448 :: t₂ ++
          Event.writeFileEv ("/root/.vcc" ++ "/minio") "B" :: t₃ ∧
      (∀ c, Event.writeFileEv ("/root/.vcc" ++ "/minio") c ∉ t₁) ∧
      t₂ = [Event.netGet (minioUrl "amd64")] ∧
      (∀ mo, Event.touchEv ("/root/.vcc" ++ "/minio") mo ∉ t₃) :=
  c8_touch_before_write wDemoDownload
    [Event.promptEv "use_ssh" "Use ssh for git clone? (y/N): "]
    [Event.promptEv "is_minio_installed"
      "Have you installed minio and started it already? (y/N): "]
    true "" "/root/.vcc" "amd64" "1.2.3.4\n" "B" ["n", "amd64", "admin", ""]
    ["amd64", "admin", ""] ["admin", ""]
    rfl rfl (by decide) (by decide) rfl rfl rfl rfl rfl rfl (by decide) rfl rfl rfl

/-- Is the previous token a literal chunk that ends in `command=`? -/
def prevIsCommandLit : Option Tok → Bool
  | some (Tok.lit s) => endsWithStr s "command="
  | _ => false

/-- Every `PYTHON_EXECUTABLE` placeholder of the template is immediately
preceded by a literal chunk ending in `command=`, i.e. the interpreter path
lands exactly in the program command lines. -/
def exeAfterCommand : Option Tok → List Tok → Bool
  | _, [] => true
  | prev, t :: rest =>
    (if t = Tok.ph "PYTHON_EXECUTABLE" then prevIsCommandLit prev else true)
      && exeAfterCommand (some t) rest

/-- Reduction of the final stage when a hostname answer line is available:
the configuration file is created with mode `0o700`, written, and the
success banner is printed. -/
theorem stageFinal_complete (flag : Bool) (instPath exe u p dpip hostLine : String)
    (rest : List String) (doc : String)
    (hdoc : formatMapToks (fullTemplate flag)
      (substMap u p (if hostLine = "" then dpip else hostLine) exe) = some doc) :
    stageFinal flag instPath exe u p dpip (hostLine :: rest)
      = ([Event.promptEv "minio_hostname" (hostPromptBase ++ " [" ++ dpip ++ "]: "),
          Event.touchEv (instPath ++ "/supervisord.conf") 448,
          Event.writeFileEv (instPath ++ "/supervisord.conf") doc,
          Event.outLine "Installation success! Run the following commands to start the vcc server: ",
          Event.outLine ("    cd " ++ instPath),
          Event.outLine "    supervisord",
          Event.outLine "    supervisorctl status"], 0) := by
  simp [stageFinal, input_with_default, inputLine, hdoc]

/-- C10: the interpreter path substituted into the configuration is
`sys.executable` — a field of the environment, not an operator answer: every
`PYTHON_EXECUTABLE` placeholder sits in a `command=` line of the template,
and the document written at the end of a run is the template rendered with
the `PYTHON_EXECUTABLE` key bound to the environment's interpreter path,
whatever the operator typed at the prompts. -/
theorem c10_interpreter_path (w : World) (evsS evsM : Trace) (use_ssh : Bool)
    (line instPath body hostLine : String) (stdin2 stdin3 stdin4 : List String)
    (hv : w.versionOk = true) (hp : w.platformLinux = true)
    (hyn : yes_or_no_question "use_ssh" "Use ssh for git clone?" w.stdin
      = (evsS, some (use_ssh, line :: stdin2)))
    (hip : instPath = w.resolveAbs
      (if line = "" then w.resolveAbs (w.home ++ "/.vcc") else line))
    (hex : w.pathExists instPath = false)
    (hg1 : w.gitExit "vcc_rpc" = 0)
    (hr1 : w.pipReqExit "vcc_rpc/requirements.txt" = 0)
    (hg2 : w.gitExit "web-vcc" = 0)
    (hr2 : w.pipReqExit "web-vcc/backend/requirements.txt" = 0)
    (hm : w.pipModExit "supervisor" = 0)
    (hynM : yes_or_no_question "is_minio_installed"
      "Have you installed minio and started it already?" stdin2
      = (evsM, some (true, stdin3)))
    (hipres : w.ipResult = Except.ok body)
    (hhost : stdin3 = hostLine :: stdin4) :
    exeAfterCommand none (fullTemplate true) = true ∧
    exeAfterCommand none (fullTemplate false) = true ∧
    ∃ doc,
      formatMapToks (fullTemplate true)
        (substMap "" "" (if hostLine = "" then dropLastStr body else hostLine)
          w.executable) = some doc ∧
      Event.writeFileEv (instPath ++ "/supervisord.conf") doc ∈ (run w).1 := by
  subst hhost
  obtain ⟨doc, hdoc⟩ := formatMapToks_fullTemplate true "" ""
    (if hostLine = "" then dropLastStr body else hostLine) w.executable
  have hrt := run_reaches_tail w evsS use_ssh line instPath stdin2 hv hp hyn hip hex
    hg1 hr1 hg2 hr2 hm
  rw [hipres, stageTail_installed instPath w.executable w.secretLine w.minioResult
    evsM stdin2 (hostLine :: stdin4) body hynM,
    stageFinal_complete true instPath w.executable "" "" (dropLastStr body)
      hostLine stdin4 doc hdoc] at hrt
  refine ⟨by decide, by decide, doc, hdoc, ?_⟩
  rw [hrt]
  simp only [List.mem_append, List.mem_cons]
  tauto

/-- C10, witness: a concrete completing run with minio already installed. -/
theorem c10_witness :
    ∃ doc,
      formatMapToks (fullTemplate true)
        (substMap "" "" (if "myhost" = "" then dropLastStr "1.2.3.4\n" else "myhost")
          "/usr/bin/python3") = some doc ∧
      Event.writeFileEv ("/root/.vcc" ++ "/supervisord.conf") doc ∈
        (run wDemoInstalled).1 :=
  (c10_interpreter_path wDemoInstalled
    [Event.promptEv "use_ssh" "Use ssh for git clone? (y/N): "]
    [Event.promptEv "is_minio_installed"
      "Have you installed minio and started it already? (y/N): "]
    true "" "/root/.vcc" "1.2.3.4\n" "myhost" ["y", "myhost"] ["myhost"] []
    rfl rfl (by decide) (by decide) rfl rfl rfl rfl rfl rfl (by decide) rfl rfl).2.2

/-- Is the event the hostname prompt (source line 196)? -/
def isHostnamePromptEv : Event → Bool
  | Event.promptEv tag _ => tag == "minio_hostname"
  | _ => false

/-- Is the event the public-IP fetch (source line 97)? -/
def isCheckipFetch : Event → Bool
  | Event.netGet url => url == "https://checkip.amazonaws.com"
  | _ => false

/-- Does some event satisfying `p` occur strictly before some event
satisfying `q`? -/
def anyThen (p q : Event → Bool) : Trace → Bool
  | [] => false
  | e :: rest => (p e && rest.any q) || anyThen p q rest

theorem anyThen_append (p q : Event → Bool) (xs ys : Trace) :
    anyThen p q (xs ++ ys)
      = (anyThen p q xs || (xs.any p && ys.any q) || anyThen p q ys) := by
  induction xs with
  | nil => simp [anyThen]
  | cons x xs ih =>
    rw [List.cons_append,
      show anyThen p q (x :: (xs ++ ys))
        = ((p x && (xs ++ ys).any q) || anyThen p q (xs ++ ys)) from rfl,
      ih, List.any_append,
      show anyThen p q (x :: xs) = ((p x && xs.any q) || anyThen p q xs) from rfl,
      List.any_cons]
    generalize p x = a
    generalize List.any xs q = b
    generalize List.any ys q = c
    generalize anyThen p q xs = d
    generalize anyThen p q ys = e
    generalize List.any xs p = f
    revert a b c d e f
    decide

theorem anyThen_false_of_no_p (p q : Event → Bool) (tr : Trace)
    (h : tr.any p = false) : anyThen p q tr = false := by
  induction tr with
  | nil => rfl
  | cons x tr ih =>
    simp only [List.any_cons, Bool.or_eq_false_iff] at h
    simp [anyThen, h.1, ih h.2]

theorem anyThen_false_of_no_q (p q : Event → Bool) (tr : Trace)
    (h : tr.any q = false) : anyThen p q tr = false := by
  induction tr with
  | nil => rfl
  | cons x tr ih =>
    simp only [List.any_cons, Bool.or_eq_false_iff] at h
    simp [anyThen, h.2, ih h.2]

/-- Every event the yes/no loop emits is its own prompt, the re-prompt line,
or the end-of-input error line. -/
theorem yn_mem_shape (tag p : String) : ∀ (stdin : List String) (evs : Trace)
    (r : Option (Bool × List String)),
    yes_or_no_question tag p stdin = (evs, r) →
    ∀ e ∈ evs, (∃ tx, e = Event.promptEv tag tx) ∨
      e = Event.outLine "Please enter \"y\" or \"n\". " ∨
      e = Event.errLine "EOFError" := by
  intro stdin
  induction stdin with
  | nil =>
    intro evs r h e he
    simp only [yes_or_no_question] at h
    injection h with h1 h2
    subst h1
    simp only [List.mem_cons, List.mem_singleton] at he
    rcases he with rfl | rfl | he
    · exact Or.inl ⟨_, rfl⟩
    · exact Or.inr (Or.inr rfl)
    · exact absurd he (List.not_mem_nil e)
  | cons a rest ih =>
    intro evs r h e he
    simp only [yes_or_no_question] at h
    split at h
    · injection h with h1 h2
      subst h1
      simp only [List.mem_singleton] at he
      subst he
      exact Or.inl ⟨_, rfl⟩
    · split at h
      · injection h with h1 h2
        subst h1
        simp only [List.mem_singleton] at he
        subst he
        exact Or.inl ⟨_, rfl⟩
      · rcases hrec : yes_or_no_question tag p rest with ⟨evs2, r2⟩
        rw [hrec] at h
        injection h with h1 h2
        subst h1
        simp only [List.mem_cons] at he
        rcases he with rfl | rfl | he
        · exact Or.inl ⟨_, rfl⟩
        · exact Or.inr (Or.inl rfl)
        · exact ih evs2 r2 hrec e he

/-- The yes/no loop never emits the hostname prompt (its tag differs). -/
theorem yn_no_hostname (tag p : String) (htag : (tag == "minio_hostname") = false)
    (stdin : List String) (evs : Trace) (r : Option (Bool × List String))
    (h : yes_or_no_question tag p stdin = (evs, r)) :
    evs.any isHostnamePromptEv = false := by
  rw [List.any_eq_false]
  intro e he
  rcases yn_mem_shape tag p stdin evs r h e he with ⟨tx, rfl⟩ | rfl | rfl <;>
    simp [isHostnamePromptEv, htag]

/-- The yes/no loop performs no network request. -/
theorem yn_no_fetch (tag p : String) (stdin : List String) (evs : Trace)
    (r : Option (Bool × List String))
    (h : yes_or_no_question tag p stdin = (evs, r)) :
    evs.any isCheckipFetch = false := by
  rw [List.any_eq_false]
  intro e he
  rcases yn_mem_shape tag p stdin evs r h e he with ⟨tx, rfl⟩ | rfl | rfl <;>
    simp [isCheckipFetch]

/-- The download URL is never the IP-echo URL, whatever architecture token
the operator typed. -/
theorem minioUrl_ne_checkip (architecture : String) :
    (minioUrl architecture == "https://checkip.amazonaws.com") = false := by
  rw [beq_eq_false_iff_ne]
  intro e
  have hd : ("https://dl.min.io/server/minio/release/linux-".data ++ architecture.data)
      ++ "/minio".data = "https://checkip.amazonaws.com".data := congrArg String.data e
  have h9 : (("https://dl.min.io/server/minio/release/linux-".data ++ architecture.data)
      ++ "/minio".data).take 9 = "https://checkip.amazonaws.com".data.take 9 := by rw [hd]
  rw [List.append_assoc, List.take_append_of_le_length (by decide)] at h9
  exact absurd h9 (by decide)

/-- The final stage performs no network request at all. -/
theorem stageFinal_no_fetch (flag : Bool) (instPath exe u p dpip : String)
    (stdin : List String) :
    (stageFinal flag instPath exe u p dpip stdin).1.any isCheckipFetch = false := by
  obtain ⟨doc, hdoc⟩ := formatMapToks_fullTemplate flag u p
    (match stdin with | [] => dpip | a :: _ => if a = "" then dpip else a) exe
  cases stdin with
  | nil => simp [stageFinal, input_with_default, inputLine, isCheckipFetch]
  | cons a rest =>
    simp only at hdoc
    simp [stageFinal, input_with_default, inputLine, hdoc, isCheckipFetch]

/-- The storage-provisioning stage never issues the IP-echo request: its only
request is the binary download, whose URL differs from the IP-echo URL. -/
theorem stageNotInstalled_no_fetch (instPath exe secret : String)
    (mR : Except String String) (dpip : String) (stdin3 : List String) :
    (stageNotInstalled instPath exe secret mR [] dpip stdin3).1.any isCheckipFetch
      = false := by
  cases stdin3 with
  | nil => simp [stageNotInstalled, inputLine, isCheckipFetch]
  | cons arch rest =>
    cases mR with
    | error m =>
      simp [stageNotInstalled, inputLine, stepEvents, isCheckipFetch, minioUrl_ne_checkip]
    | ok mbody =>
      cases rest with
      | nil =>
        simp [stageNotInstalled, inputLine, stepEvents, isCheckipFetch, minioUrl_ne_checkip]
      | cons u rest2 =>
        rcases hF : stageFinal false instPath exe u secret dpip rest2 with ⟨evsF, cF⟩
        have hFn := stageFinal_no_fetch false instPath exe u secret dpip rest2
        rw [hF] at hFn
        simp [stageNotInstalled, inputLine, stepEvents, isCheckipFetch,
          minioUrl_ne_checkip, hF, hFn]

/-- C3, counterexample: a complete concrete run in which both the public-IP
fetch and the hostname prompt occur, yet at no point does a hostname prompt
precede the fetch — the fetch happens first, contradicting the claimed order
COLLECT_HOSTNAME before FETCH_PUBLIC_IP. -/
theorem c3_counterexample :
    (run wDemoInstalled).1.any isCheckipFetch = true ∧
    (run wDemoInstalled).1.any isHostnamePromptEv = true ∧
    anyThen isHostnamePromptEv isCheckipFetch (run wDemoInstalled).1 = false := by
  decide

theorem anyThen_tail (p q : Event → Bool) (x : Event) (tr : Trace)
    (h : anyThen p q tr = true) : anyThen p q (x :: tr) = true := by
  simp [anyThen, h]

theorem anyThen_suffix (p q : Event → Bool) (xs ys : Trace)
    (h : anyThen p q ys = true) : anyThen p q (xs ++ ys) = true := by
  rw [anyThen_append]
  simp [h]

/-- Order of the fetch and the hostname prompt over the successful-prefix
trace shape: no hostname prompt is followed by the fetch, and if a hostname
prompt occurs at all, the fetch precedes it. -/
theorem c3_generic (evsS evsM rest : Trace) (ptext instPath exe : String)
    (use_ssh : Bool)
    (hSh : List.any evsS isHostnamePromptEv = false)
    (hMh : List.any evsM isHostnamePromptEv = false)
    (hRf : List.any rest isCheckipFetch = false) :
    anyThen isHostnamePromptEv isCheckipFetch (evsS ++
        Event.promptEv "install_path" ptext :: Event.mkdirEv instPath 448 ::
        Event.chdirEv instPath :: (stepsOkTrace exe use_ssh ++
          (evsM ++ Event.outLine "Getting your public ip address..." ::
            Event.netGet "https://checkip.amazonaws.com" ::
            Event.outLine " OK" :: rest))) = false ∧
    ((evsS ++ Event.promptEv "install_path" ptext :: Event.mkdirEv instPath 448 ::
        Event.chdirEv instPath :: (stepsOkTrace exe use_ssh ++
          (evsM ++ Event.outLine "Getting your public ip address..." ::
            Event.netGet "https://checkip.amazonaws.com" ::
            Event.outLine " OK" :: rest))).any isHostnamePromptEv = true →
      anyThen isCheckipFetch isHostnamePromptEv (evsS ++
        Event.promptEv "install_path" ptext :: Event.mkdirEv instPath 448 ::
        Event.chdirEv instPath :: (stepsOkTrace exe use_ssh ++
          (evsM ++ Event.outLine "Getting your public ip address..." ::
            Event.netGet "https://checkip.amazonaws.com" ::
            Event.outLine " OK" :: rest))) = true) := by
  have hbe : ("install_path" == "minio_hostname") = false := by decide
  have hng : isCheckipFetch (Event.netGet "https://checkip.amazonaws.com") = true := by
    decide
  constructor
  · simp [anyThen_append, anyThen, List.any_append, List.any_cons,
      anyThen_false_of_no_p _ _ _ hSh, anyThen_false_of_no_p _ _ _ hMh,
      anyThen_false_of_no_q _ _ _ hRf,
      hSh, hMh, hRf, isHostnamePromptEv, isCheckipFetch, stepsOkTrace]
  · intro hh
    simp only [List.any_append, List.any_cons, List.any_nil, isHostnamePromptEv,
      stepsOkTrace, hSh, hMh, hbe, Bool.false_or, Bool.or_false] at hh
    refine anyThen_suffix _ _ _ _ ?_
    refine anyThen_tail _ _ _ _ ?_
    refine anyThen_tail _ _ _ _ ?_
    refine anyThen_tail _ _ _ _ ?_
    refine anyThen_suffix _ _ _ _ ?_
    refine anyThen_suffix _ _ _ _ ?_
    refine anyThen_tail _ _ _ _ ?_
    simp only [anyThen, List.any_cons, hng, hh, isHostnamePromptEv, Bool.false_or,
      Bool.true_and, Bool.true_or]

/-- C3, amended: in every run that reaches the network stage, the public-IP
fetch happens before the hostname prompt: no hostname prompt is ever
followed by the fetch, and whenever the hostname prompt occurs the fetch
occurred earlier in the trace.  (The source fetches the IP at line 96, right
after the storage-preferences prompt, to use it as the hostname prompt's
default at line 196.) -/
theorem c3_amended (w : World) (evsS evsM : Trace) (use_ssh b : Bool)
    (line instPath body : String) (stdin2 stdin3 : List String)
    (hv : w.versionOk = true) (hp : w.platformLinux = true)
    (hyn : yes_or_no_question "use_ssh" "Use ssh for git clone?" w.stdin
      = (evsS, some (use_ssh, line :: stdin2)))
    (hip : instPath = w.resolveAbs
      (if line = "" then w.resolveAbs (w.home ++ "/.vcc") else line))
    (hex : w.pathExists instPath = false)
    (hg1 : w.gitExit "vcc_rpc" = 0)
    (hr1 : w.pipReqExit "vcc_rpc/requirements.txt" = 0)
    (hg2 : w.gitExit "web-vcc" = 0)
    (hr2 : w.pipReqExit "web-vcc/backend/requirements.txt" = 0)
    (hm : w.pipModExit "supervisor" = 0)
    (hynM : yes_or_no_question "is_minio_installed"
      "Have you installed minio and started it already?" stdin2
      = (evsM, some (b, stdin3)))
    (hipres : w.ipResult = Except.ok body) :
    anyThen isHostnamePromptEv isCheckipFetch (run w).1 = false ∧
    ((run w).1.any isHostnamePromptEv = true →
      anyThen isCheckipFetch isHostnamePromptEv (run w).1 = true) := by
  have hrt := run_reaches_tail w evsS use_ssh line instPath stdin2 hv hp hyn hip hex
    hg1 hr1 hg2 hr2 hm
  rw [hipres] at hrt
  have hSh := yn_no_hostname "use_ssh" "Use ssh for git clone?" (by decide)
    w.stdin evsS _ hyn
  have hMh := yn_no_hostname "is_minio_installed"
    "Have you installed minio and started it already?" (by decide) stdin2 evsM _ hynM
  cases b with
  | true =>
    rw [stageTail_installed instPath w.executable w.secretLine w.minioResult
      evsM stdin2 stdin3 body hynM] at hrt
    have hRf := stageFinal_no_fetch true instPath w.executable "" ""
      (dropLastStr body) stdin3
    have hg := c3_generic evsS evsM
      (stageFinal true instPath w.executable "" "" (dropLastStr body) stdin3).1
      ("Where do you want to install vcc? [" ++ w.resolveAbs (w.home ++ "/.vcc") ++ "]: ")
      instPath w.executable use_ssh hSh hMh hRf
    rw [hrt]
    exact hg
  | false =>
    rw [stageTail_notInstalled instPath w.executable w.secretLine w.minioResult
      evsM stdin2 stdin3 body hynM] at hrt
    have hRf := stageNotInstalled_no_fetch instPath w.executable w.secretLine
      w.minioResult (dropLastStr body) stdin3
    have hg := c3_generic evsS evsM
      (stageNotInstalled instPath w.executable w.secretLine w.minioResult []
        (dropLastStr body) stdin3).1
      ("Where do you want to install vcc? [" ++ w.resolveAbs (w.home ++ "/.vcc") ++ "]: ")
      instPath w.executable use_ssh hSh hMh hRf
    rw [hrt]
    exact hg

/-- C3, witness: the amended order at a concrete completing run. -/
theorem c3_witness :
    anyThen isHostnamePromptEv isCheckipFetch (run wDemoInstalled).1 = false :=
  (c3_amended wDemoInstalled
    [Event.promptEv "use_ssh" "Use ssh for git clone? (y/N): "]
    [Event.promptEv "is_minio_installed"
      "Have you installed minio and started it already? (y/N): "]
    true true "" "/root/.vcc" "1.2.3.4\n" ["y", "myhost"] ["myhost"]
    rfl rfl (by decide) (by decide) rfl rfl rfl rfl rfl rfl (by decide) rfl).1

/-- The trace writes nothing to the error stream. -/
def errFree (tr : Trace) : Prop := ∀ m, Event.errLine m ∉ tr

/-- The trace ends with a line on the error stream — nothing at all happens
after the failure report. -/
def endsErr (tr : Trace) : Prop := ∃ t m, tr = t ++ [Event.errLine m]

theorem endsErr_append (xs ys : Trace) (h : endsErr ys) : endsErr (xs ++ ys) := by
  obtain ⟨t, m, rfl⟩ := h
  exact ⟨xs ++ t, m, by rw [List.append_assoc]⟩

theorem errFree_append (xs ys : Trace) (hx : errFree xs) (hy : errFree ys) :
    errFree (xs ++ ys) := by
  intro m hm
  rcases List.mem_append.1 hm with h | h
  · exact hx m h
  · exact hy m h

/-- The final stage either completes with exit status 0 and a clean error
stream, or exits with status 1 and its trace ends with the error report. -/
theorem stageFinal_spec (flag : Bool) (instPath exe u p dpip : String)
    (stdin : List String) :
    ((stageFinal flag instPath exe u p dpip stdin).2 = 0 ∧
      errFree (stageFinal flag instPath exe u p dpip stdin).1) ∨
    ((stageFinal flag instPath exe u p dpip stdin).2 = 1 ∧
      endsErr (stageFinal flag instPath exe u p dpip stdin).1) := by
  cases stdin with
  | nil =>
    right
    refine ⟨by simp [stageFinal, input_with_default, inputLine], ?_⟩
    exact ⟨[Event.promptEv "minio_hostname" (hostPromptBase ++ " [" ++ dpip ++ "]: ")],
      "EOFError", by simp [stageFinal, input_with_default, inputLine]⟩
  | cons a rest =>
    obtain ⟨doc, hdoc⟩ := formatMapToks_fullTemplate flag u p (if a = "" then dpip else a) exe
    left
    rw [stageFinal_complete flag instPath exe u p dpip a rest doc hdoc]
    refine ⟨rfl, ?_⟩
    intro m hm
    simp at hm

/-- Same dichotomy for the storage-provisioning stage. -/
theorem stageNotInstalled_spec (instPath exe secret : String)
    (mR : Except String String) (dpip : String) (stdin3 : List String) :
    ((stageNotInstalled instPath exe secret mR [] dpip stdin3).2 = 0 ∧
      errFree (stageNotInstalled instPath exe secret mR [] dpip stdin3).1) ∨
    ((stageNotInstalled instPath exe secret mR [] dpip stdin3).2 = 1 ∧
      endsErr (stageNotInstalled instPath exe secret mR [] dpip stdin3).1) := by
  cases stdin3 with
  | nil =>
    right
    refine ⟨by simp [stageNotInstalled, inputLine], ?_⟩
    exact ⟨[Event.promptEv "architecture" archPromptText], "EOFError",
      by simp [stageNotInstalled, inputLine]⟩
  | cons arch rest =>
    cases mR with
    | error m =>
      right
      refine ⟨by simp [stageNotInstalled, inputLine, stepEvents], ?_⟩
      exact ⟨[Event.promptEv "architecture" archPromptText,
        Event.outLine "Downloading minio...",
        Event.touchEv (instPath ++ "/minio") 448, Event.netGet (minioUrl arch)],
        " ERROR: e=" ++ m, by simp [stageNotInstalled, inputLine, stepEvents]⟩
    | ok mbody =>
      cases rest with
      | nil =>
        right
        refine ⟨by simp [stageNotInstalled, inputLine, stepEvents], ?_⟩
        exact ⟨[Event.promptEv "architecture" archPromptText,
          Event.outLine "Downloading minio...",
          Event.touchEv (instPath ++ "/minio") 448, Event.netGet (minioUrl arch),
          Event.writeFileEv (instPath ++ "/minio") mbody, Event.outLine " OK",
          Event.promptEv "minio_username" "Enter your new username for minio: "],
          "EOFError", by simp [stageNotInstalled, inputLine, stepEvents]⟩
      | cons u rest2 =>
        rcases hF : stageFinal false instPath exe u secret dpip rest2 with ⟨evsF, cF⟩
        have hspec := stageFinal_spec false instPath exe u secret dpip rest2
        rw [hF] at hspec
        have hred : stageNotInstalled instPath exe secret (Except.ok mbody) [] dpip
            (arch :: u :: rest2)
            = (Event.promptEv "architecture" archPromptText ::
               Event.outLine "Downloading minio..." ::
               Event.touchEv (instPath ++ "/minio") 448 ::
               Event.netGet (minioUrl arch) ::
               Event.writeFileEv (instPath ++ "/minio") mbody ::
               Event.outLine " OK" ::
               Event.promptEv "minio_username" "Enter your new username for minio: " ::
               Event.promptEv "minio_password" "Enter your new password for minio: " ::
               evsF, cF) := by
          simp [stageNotInstalled, inputLine, stepEvents, hF]
        rw [hred]
        have hsplit : (Event.promptEv "architecture" archPromptText ::
            Event.outLine "Downloading minio..." ::
            Event.touchEv (instPath ++ "/minio") 448 ::
            Event.netGet (minioUrl arch) ::
            Event.writeFileEv (instPath ++ "/minio") mbody ::
            Event.outLine " OK" ::
            Event.promptEv "minio_username" "Enter your new username for minio: " ::
            Event.promptEv "minio_password" "Enter your new password for minio: " ::
            evsF)
            = [Event.promptEv "architecture" archPromptText,
               Event.outLine "Downloading minio...",
               Event.touchEv (instPath ++ "/minio") 448,
               Event.netGet (minioUrl arch),
               Event.writeFileEv (instPath ++ "/minio") mbody,
               Event.outLine " OK",
               Event.promptEv "minio_username" "Enter your new username for minio: ",
               Event.promptEv "minio_password" "Enter your new password for minio: "]
              ++ evsF := rfl
        rcases hspec with ⟨hc, hf⟩ | ⟨hc, he⟩
        · left
          refine ⟨hc, ?_⟩
          rw [hsplit]
          refine errFree_append _ _ ?_ hf
          intro m hm
          simp at hm
        · right
          refine ⟨hc, ?_⟩
          rw [hsplit]
          exact endsErr_append _ _ he

/-- Same dichotomy for the whole tail of the program. -/
theorem stageTail_spec (instPath exe secret : String)
    (ipR mR : Except String String) (stdin2 : List String) :
    ((stageTail instPath exe secret ipR mR [] stdin2).2 = 0 ∧
      errFree (stageTail instPath exe secret ipR mR [] stdin2).1) ∨
    ((stageTail instPath exe secret ipR mR [] stdin2).2 = 1 ∧
      endsErr (stageTail instPath exe secret ipR mR [] stdin2).1) := by
  rcases hYN : yes_or_no_question "is_minio_installed"
    "Have you installed minio and started it already?" stdin2 with ⟨evsM, r⟩
  cases r with
  | none =>
    right
    have hred : stageTail instPath exe secret ipR mR [] stdin2 = (evsM, 1) := by
      simp [stageTail, hYN]
    rw [hred]
    exact ⟨rfl, yn_none_ends _ _ _ _ hYN⟩
  | some br =>
    rcases br with ⟨b, stdin3⟩
    have hM : errFree evsM := yn_some_noErr _ _ _ _ _ _ hYN
    cases ipR with
    | error m =>
      right
      have hred : stageTail instPath exe secret (Except.error m) mR [] stdin2
          = (evsM ++ [Event.outLine "Getting your public ip address...",
              Event.netGet "https://checkip.amazonaws.com",
              Event.errLine (" ERROR: e=" ++ m)], 1) := by
        simp [stageTail, hYN, stepEvents]
      rw [hred]
      refine ⟨rfl, endsErr_append _ _ ?_⟩
      exact ⟨[Event.outLine "Getting your public ip address...",
        Event.netGet "https://checkip.amazonaws.com"], " ERROR: e=" ++ m, rfl⟩
    | ok body =>
      have hfsplit : ∀ tail : Trace,
          (Event.outLine "Getting your public ip address..." ::
           Event.netGet "https://checkip.amazonaws.com" ::
           Event.outLine " OK" :: tail)
          = [Event.outLine "Getting your public ip address...",
             Event.netGet "https://checkip.amazonaws.com",
             Event.outLine " OK"] ++ tail := fun _ => rfl
      cases b with
      | true =>
        rw [stageTail_installed instPath exe secret mR evsM stdin2 stdin3 body hYN]
        rcases stageFinal_spec true instPath exe "" "" (dropLastStr body) stdin3 with
          ⟨hc, hf⟩ | ⟨hc, he⟩
        · left
          refine ⟨hc, ?_⟩
          refine errFree_append _ _ hM ?_
          rw [hfsplit]
          refine errFree_append _ _ ?_ hf
          intro m hm
          simp at hm
        · right
          refine ⟨hc, ?_⟩
          refine endsErr_append _ _ ?_
          rw [hfsplit]
          exact endsErr_append _ _ he
      | false =>
        rw [stageTail_notInstalled instPath exe secret mR evsM stdin2 stdin3 body hYN]
        rcases stageNotInstalled_spec instPath exe secret mR (dropLastStr body) stdin3 with
          ⟨hc, hf⟩ | ⟨hc, he⟩
        · left
          refine ⟨hc, ?_⟩
          refine errFree_append _ _ hM ?_
          rw [hfsplit]
          refine errFree_append _ _ ?_ hf
          intro m hm
          simp at hm
        · right
          refine ⟨hc, ?_⟩
          refine endsErr_append _ _ ?_
          rw [hfsplit]
          exact endsErr_append _ _ he

/-- The five installation steps either all succeed with a clean error stream,
or execution stops at the first nonzero exit status with the trace ending at
the failure report. -/
theorem stageSteps_spec (exe : String) (use_ssh : Bool)
    (gitExit pipReqExit pipModExit : String → Nat) :
    ((stageSteps exe use_ssh gitExit pipReqExit pipModExit).2 = true ∧
      errFree (stageSteps exe use_ssh gitExit pipReqExit pipModExit).1) ∨
    ((stageSteps exe use_ssh gitExit pipReqExit pipModExit).2 = false ∧
      endsErr (stageSteps exe use_ssh gitExit pipReqExit pipModExit).1) := by
  by_cases h1 : gitExit "vcc_rpc" = 0
  case neg =>
    right
    have hred : stageSteps exe use_ssh gitExit pipReqExit pipModExit
        = ([Event.outLine "Cloning vcc_rpc...",
            Event.runTool ["git", "clone",
              if use_ssh then "git@github.com:vcc-chat/vcc_rpc.git"
              else "https://github.com/vcc-chat/vcc_rpc.git"],
            Event.errLine "git clone failed"], false) := by
      simp [stageSteps, git_clone, toolRes, stepEvents, h1]
    rw [hred]
    exact ⟨rfl, ⟨[Event.outLine "Cloning vcc_rpc...",
      Event.runTool ["git", "clone",
        if use_ssh then "git@github.com:vcc-chat/vcc_rpc.git"
        else "https://github.com/vcc-chat/vcc_rpc.git"]],
      "git clone failed", rfl⟩⟩
  case pos =>
  by_cases h2 : pipReqExit "vcc_rpc/requirements.txt" = 0
  case neg =>
    right
    have hred : stageSteps exe use_ssh gitExit pipReqExit pipModExit
        = ([Event.outLine "Cloning vcc_rpc...",
            Event.runTool ["git", "clone",
              if use_ssh then "git@github.com:vcc-chat/vcc_rpc.git"
              else "https://github.com/vcc-chat/vcc_rpc.git"],
            Event.outLine " OK",
            Event.outLine "Installing requirements...",
            Event.runTool [exe, "-m", "pip", "install", "-r", "vcc_rpc/requirements.txt"],
            Event.errLine "pip install failed"], false) := by
      simp [stageSteps, git_clone, pip_install_requirements, toolRes, stepEvents, h1, h2]
    rw [hred]
    exact ⟨rfl, ⟨[Event.outLine "Cloning vcc_rpc...",
      Event.runTool ["git", "clone",
        if use_ssh then "git@github.com:vcc-chat/vcc_rpc.git"
        else "https://github.com/vcc-chat/vcc_rpc.git"],
      Event.outLine " OK",
      Event.outLine "Installing requirements...",
      Event.runTool [exe, "-m", "pip", "install", "-r", "vcc_rpc/requirements.txt"]],
      "pip install failed", rfl⟩⟩
  case pos =>
  by_cases h3 : gitExit "web-vcc" = 0
  case neg =>
    right
    have hred : stageSteps exe use_ssh gitExit pipReqExit pipModExit
        = ([Event.outLine "Cloning vcc_rpc...",
            Event.runTool ["git", "clone",
              if use_ssh then "git@github.com:vcc-chat/vcc_rpc.git"
              else "https://github.com/vcc-chat/vcc_rpc.git"],
            Event.outLine " OK",
            Event.outLine "Installing requirements...",
            Event.runTool [exe, "-m", "pip", "install", "-r", "vcc_rpc/requirements.txt"],
            Event.outLine " OK",
            Event.outLine "Cloning web-vcc...",
            Event.runTool ["git", "clone",
              if use_ssh then "git@github.com:vcc-chat/web-vcc.git"
              else "https://github.com/vcc-chat/web-vcc.git"],
            Event.errLine "git clone failed"], false) := by
      simp [stageSteps, git_clone, pip_install_requirements, toolRes, stepEvents, h1, h2, h3]
    rw [hred]
    exact ⟨rfl, ⟨[Event.outLine "Cloning vcc_rpc...",
      Event.runTool ["git", "clone",
        if use_ssh then "git@github.com:vcc-chat/vcc_rpc.git"
        else "https://github.com/vcc-chat/vcc_rpc.git"],
      Event.outLine " OK",
      Event.outLine "Installing requirements...",
      Event.runTool [exe, "-m", "pip", "install", "-r", "vcc_rpc/requirements.txt"],
      Event.outLine " OK",
      Event.outLine "Cloning web-vcc...",
      Event.runTool ["git", "clone",
        if use_ssh then "git@github.com:vcc-chat/web-vcc.git"
        else "https://github.com/vcc-chat/web-vcc.git"]],
      "git clone failed", rfl⟩⟩
  case pos =>
  by_cases h4 : pipReqExit "web-vcc/backend/requirements.txt" = 0
  case neg =>
    right
    have hred : stageSteps exe use_ssh gitExit pipReqExit pipModExit
        = ([Event.outLine "Cloning vcc_rpc...",
            Event.runTool ["git", "clone",
              if use_ssh then "git@github.com:vcc-chat/vcc_rpc.git"
              else "https://github.com/vcc-chat/vcc_rpc.git"],
            Event.outLine " OK",
            Event.outLine "Installing requirements...",
            Event.runTool [exe, "-m", "pip", "install", "-r", "vcc_rpc/requirements.txt"],
            Event.outLine " OK",
            Event.outLine "Cloning web-vcc...",
            Event.runTool ["git", "clone",
              if use_ssh then "git@github.com:vcc-chat/web-vcc.git"
              else "https://github.com/vcc-chat/web-vcc.git"],
            Event.outLine " OK",
            Event.outLine "Installing requirements...",
            Event.runTool [exe, "-m", "pip", "install", "-r",
              "web-vcc/backend/requirements.txt"],
            Event.errLine "pip install failed"], false) := by
      simp [stageSteps, git_clone, pip_install_requirements, toolRes, stepEvents,
        h1, h2, h3, h4]
    rw [hred]
    exact ⟨rfl, ⟨[Event.outLine "Cloning vcc_rpc...",
      Event.runTool ["git", "clone",
        if use_ssh then "git@github.com:vcc-chat/vcc_rpc.git"
        else "https://github.com/vcc-chat/vcc_rpc.git"],
      Event.outLine " OK",
      Event.outLine "Installing requirements...",
      Event.runTool [exe, "-m", "pip", "install", "-r", "vcc_rpc/requirements.txt"],
      Event.outLine " OK",
      Event.outLine "Cloning web-vcc...",
      Event.runTool ["git", "clone",
        if use_ssh then "git@github.com:vcc-chat/web-vcc.git"
        else "https://github.com/vcc-chat/web-vcc.git"],
      Event.outLine " OK",
      Event.outLine "Installing requirements...",
      Event.runTool [exe, "-m", "pip", "install", "-r",
        "web-vcc/backend/requirements.txt"]],
      "pip install failed", rfl⟩⟩
  case pos =>
  by_cases h5 : pipModExit "supervisor" = 0
  case neg =>
    right
    have hred : stageSteps exe use_ssh gitExit pipReqExit pipModExit
        = ([Event.outLine "Cloning vcc_rpc...",
            Event.runTool ["git", "clone",
              if use_ssh then "git@github.com:vcc-chat/vcc_rpc.git"
              else "https://github.com/vcc-chat/vcc_rpc.git"],
            Event.outLine " OK",
            Event.outLine "Installing requirements...",
            Event.runTool [exe, "-m", "pip", "install", "-r", "vcc_rpc/requirements.txt"],
            Event.outLine " OK",
            Event.outLine "Cloning web-vcc...",
            Event.runTool ["git", "clone",
              if use_ssh then "git@github.com:vcc-chat/web-vcc.git"
              else "https://github.com/vcc-chat/web-vcc.git"],
            Event.outLine " OK",
            Event.outLine "Installing requirements...",
            Event.runTool [exe, "-m", "pip", "install", "-r",
              "web-vcc/backend/requirements.txt"],
            Event.outLine " OK",
            Event.outLine "Installing supervisord...",
            Event.runTool [exe, "-m", "pip", "install", "supervisor"],
            Event.errLine "pip install failed"], false) := by
      simp [stageSteps, git_clone, pip_install_requirements, pip_install, toolRes,
        stepEvents, h1, h2, h3, h4, h5]
    rw [hred]
    exact ⟨rfl, ⟨[Event.outLine "Cloning vcc_rpc...",
      Event.runTool ["git", "clone",
        if use_ssh then "git@github.com:vcc-chat/vcc_rpc.git"
        else "https://github.com/vcc-chat/vcc_rpc.git"],
      Event.outLine " OK",
      Event.outLine "Installing requirements...",
      Event.runTool [exe, "-m", "pip", "install", "-r", "vcc_rpc/requirements.txt"],
      Event.outLine " OK",
      Event.outLine "Cloning web-vcc...",
      Event.runTool ["git", "clone",
        if use_ssh then "git@github.com:vcc-chat/web-vcc.git"
        else "https://github.com/vcc-chat/web-vcc.git"],
      Event.outLine " OK",
      Event.outLine "Installing requirements...",
      Event.runTool [exe, "-m", "pip", "install", "-r",
        "web-vcc/backend/requirements.txt"],
      Event.outLine " OK",
      Event.outLine "Installing supervisord...",
      Event.runTool [exe, "-m", "pip", "install", "supervisor"]],
      "pip install failed", rfl⟩⟩
  case pos =>
    left
    rw [stageSteps_ok exe use_ssh gitExit pipReqExit pipModExit h1 h2 h3 h4 h5]
    refine ⟨rfl, ?_⟩
    intro m hm
    simp [stepsOkTrace] at hm

/-- A concrete environment whose first clone fails with a nonzero status. -/
def wDemoGitFail : World := { wDemoDownload with gitExit := fun _ => 1 }

/-- A concrete environment whose public-IP fetch raises an exception. -/
def wDemoIpFail : World := { wDemoInstalled with ipResult := Except.error "ConnectionError" }

/-- C4: fail-fast error handling.  In every environment the run either exits
with status 0 having written nothing to the error stream, or exits with
status 1 with a trace that ends at a line on the error stream — nothing at
all (in particular no later step) happens after the failure report.
Concretely, a nonzero clone status ends the run with the fixed
`git clone failed` message, and an exception inside the public-IP step ends
it with the ` ERROR: e=...` marker carrying the exception's description. -/
theorem c4_fail_fast :
    (∀ w : World, ((run w).2 = 0 ∧ errFree (run w).1) ∨
      ((run w).2 = 1 ∧ endsErr (run w).1)) ∧
    (run wDemoGitFail).2 = 1 ∧
    (run wDemoGitFail).1.getLast? = some (Event.errLine "git clone failed") ∧
    (run wDemoIpFail).2 = 1 ∧
    (run wDemoIpFail).1.getLast? = some (Event.errLine " ERROR: e=ConnectionError") := by
  refine ⟨?_, by decide, by decide, by decide, by decide⟩
  intro w
  cases hv : w.versionOk with
  | false =>
    right
    have hred : run w = ([Event.errLine "vcc requires at least python3.10"], 1) := by
      simp [run, runCore, hv]
    rw [hred]
    exact ⟨rfl, ⟨[], "vcc requires at least python3.10", rfl⟩⟩
  | true =>
  cases hp : w.platformLinux with
  | false =>
    right
    have hred : run w = ([Event.errLine "vcc requires linux"], 1) := by
      simp [run, runCore, hv, hp]
    rw [hred]
    exact ⟨rfl, ⟨[], "vcc requires linux", rfl⟩⟩
  | true =>
  rcases hyn : yes_or_no_question "use_ssh" "Use ssh for git clone?" w.stdin with ⟨evsS, r⟩
  cases r with
  | none =>
    right
    have hred : run w = (evsS, 1) := by
      simp [run, runCore, hv, hp, hyn]
    rw [hred]
    exact ⟨rfl, yn_none_ends _ _ _ _ hyn⟩
  | some sr =>
  rcases sr with ⟨use_ssh, rest⟩
  have hSfree : errFree evsS := yn_some_noErr _ _ _ _ _ _ hyn
  cases rest with
  | nil =>
    right
    have hred : run w = (evsS ++
        [Event.promptEv "install_path" ("Where do you want to install vcc? [" ++
          w.resolveAbs (w.home ++ "/.vcc") ++ "]: "),
         Event.errLine "EOFError"], 1) := by
      simp [run, runCore, hv, hp, hyn, input_with_default, inputLine]
    rw [hred]
    refine ⟨rfl, endsErr_append _ _ ?_⟩
    exact ⟨[Event.promptEv "install_path" ("Where do you want to install vcc? [" ++
      w.resolveAbs (w.home ++ "/.vcc") ++ "]: ")], "EOFError", rfl⟩
  | cons line rest2 =>
  by_cases hex : w.pathExists (w.resolveAbs
      (if line = "" then w.resolveAbs (w.home ++ "/.vcc") else line)) = true
  · right
    have hred : run w = (evsS ++
        [Event.promptEv "install_path" ("Where do you want to install vcc? [" ++
          w.resolveAbs (w.home ++ "/.vcc") ++ "]: "),
         Event.errLine "vcc has already been installed"], 1) := by
      simp [run, runCore, hv, hp, hyn, input_with_default, inputLine, hex]
    rw [hred]
    refine ⟨rfl, endsErr_append _ _ ?_⟩
    exact ⟨[Event.promptEv "install_path" ("Where do you want to install vcc? [" ++
      w.resolveAbs (w.home ++ "/.vcc") ++ "]: ")], "vcc has already been installed", rfl⟩
  · have hex2 : w.pathExists (w.resolveAbs
        (if line = "" then w.resolveAbs (w.home ++ "/.vcc") else line)) = false := by
      revert hex
      cases w.pathExists (w.resolveAbs
        (if line = "" then w.resolveAbs (w.home ++ "/.vcc") else line)) <;> simp
    rcases hsteps : stageSteps w.executable use_ssh w.gitExit w.pipReqExit w.pipModExit
      with ⟨evsT, ok⟩
    have hsspec := stageSteps_spec w.executable use_ssh w.gitExit w.pipReqExit w.pipModExit
    rw [hsteps] at hsspec
    cases ok with
    | false =>
      right
      have hred : run w = (evsS ++
          Event.promptEv "install_path" ("Where do you want to install vcc? [" ++
            w.resolveAbs (w.home ++ "/.vcc") ++ "]: ") ::
          Event.mkdirEv (w.resolveAbs
            (if line = "" then w.resolveAbs (w.home ++ "/.vcc") else line)) 448 ::
          Event.chdirEv (w.resolveAbs
            (if line = "" then w.resolveAbs (w.home ++ "/.vcc") else line)) ::
          evsT, 1) := by
        simp [run, runCore, hv, hp, hyn, input_with_default, inputLine, hex2, hsteps]
      rw [hred]
      rcases hsspec with ⟨hbad, _⟩ | ⟨_, he⟩
      · exact absurd hbad (by simp)
      refine ⟨rfl, ?_⟩
      rw [show evsS ++
          Event.promptEv "install_path" ("Where do you want to install vcc? [" ++
            w.resolveAbs (w.home ++ "/.vcc") ++ "]: ") ::
          Event.mkdirEv (w.resolveAbs
            (if line = "" then w.resolveAbs (w.home ++ "/.vcc") else line)) 448 ::
          Event.chdirEv (w.resolveAbs
            (if line = "" then w.resolveAbs (w.home ++ "/.vcc") else line)) ::
          evsT = (evsS ++
          [Event.promptEv "install_path" ("Where do you want to install vcc? [" ++
            w.resolveAbs (w.home ++ "/.vcc") ++ "]: "),
          Event.mkdirEv (w.resolveAbs
            (if line = "" then w.resolveAbs (w.home ++ "/.vcc") else line)) 448,
          Event.chdirEv (w.resolveAbs
            (if line = "" then w.resolveAbs (w.home ++ "/.vcc") else line))]) ++ evsT
        from by rw [List.append_assoc]; rfl]
      exact endsErr_append _ _ he
    | true =>
      have hTfree : errFree evsT := by
        rcases hsspec with ⟨_, hf⟩ | ⟨hbad, _⟩
        · exact hf
        · exact absurd hbad (by simp)
      rcases htail : stageTail (w.resolveAbs
          (if line = "" then w.resolveAbs (w.home ++ "/.vcc") else line))
          w.executable w.secretLine w.ipResult w.minioResult [] rest2 with ⟨evsT2, code⟩
      have htspec := stageTail_spec (w.resolveAbs
          (if line = "" then w.resolveAbs (w.home ++ "/.vcc") else line))
          w.executable w.secretLine w.ipResult w.minioResult rest2
      rw [htail] at htspec
      have hred : run w = (evsS ++
          Event.promptEv "install_path" ("Where do you want to install vcc? [" ++
            w.resolveAbs (w.home ++ "/.vcc") ++ "]: ") ::
          Event.mkdirEv (w.resolveAbs
            (if line = "" then w.resolveAbs (w.home ++ "/.vcc") else line)) 448 ::
          Event.chdirEv (w.resolveAbs
            (if line = "" then w.resolveAbs (w.home ++ "/.vcc") else line)) ::
          (evsT ++ evsT2), code) := by
        simp [run, runCore, hv, hp, hyn, input_with_default, inputLine, hex2, hsteps, htail]
      rw [hred]
      have hsplit : evsS ++
          Event.promptEv "install_path" ("Where do you want to install vcc? [" ++
            w.resolveAbs (w.home ++ "/.vcc") ++ "]: ") ::
          Event.mkdirEv (w.resolveAbs
            (if line = "" then w.resolveAbs (w.home ++ "/.vcc") else line)) 448 ::
          Event.chdirEv (w.resolveAbs
            (if line = "" then w.resolveAbs (w.home ++ "/.vcc") else line)) ::
          (evsT ++ evsT2) = (evsS ++
          [Event.promptEv "install_path" ("Where do you want to install vcc? [" ++
            w.resolveAbs (w.home ++ "/.vcc") ++ "]: "),
          Event.mkdirEv (w.resolveAbs
            (if line = "" then w.resolveAbs (w.home ++ "/.vcc") else line)) 448,
          Event.chdirEv (w.resolveAbs
            (if line = "" then w.resolveAbs (w.home ++ "/.vcc") else line))]) ++
          (evsT ++ evsT2) := by rw [List.append_assoc]; rfl
      rcases htspec with ⟨hc, hf⟩ | ⟨hc, he⟩
      · left
        refine ⟨hc, ?_⟩
        rw [hsplit]
        refine errFree_append _ _ (errFree_append _ _ hSfree ?_) (errFree_append _ _ hTfree hf)
        intro m hm
        simp at hm
      · right
        refine ⟨hc, ?_⟩
        rw [hsplit]
        exact endsErr_append _ _ (endsErr_append _ _ he)

/-- The operator-visible streams of the final stage do not depend on the
password (it is only embedded in the written file's content, which is not a
stream event). -/
theorem stageFinal_secret (flag : Bool) (instPath exe u dpip : String)
    (p₁ p₂ : String) (stdin : List String) :
    (stageFinal flag instPath exe u p₁ dpip stdin).1.filter isStream
      = (stageFinal flag instPath exe u p₂ dpip stdin).1.filter isStream ∧
    (stageFinal flag instPath exe u p₁ dpip stdin).2
      = (stageFinal flag instPath exe u p₂ dpip stdin).2 := by
  cases stdin with
  | nil => exact ⟨rfl, rfl⟩
  | cons a rest =>
    obtain ⟨doc1, hdoc1⟩ := formatMapToks_fullTemplate flag u p₁ (if a = "" then dpip else a) exe
    obtain ⟨doc2, hdoc2⟩ := formatMapToks_fullTemplate flag u p₂ (if a = "" then dpip else a) exe
    rw [stageFinal_complete flag instPath exe u p₁ dpip a rest doc1 hdoc1,
      stageFinal_complete flag instPath exe u p₂ dpip a rest doc2 hdoc2]
    exact ⟨by simp [isStream], rfl⟩

/-- Stream noninterference of the storage-provisioning stage in the secret. -/
theorem stageNotInstalled_secret (instPath exe : String)
    (mR : Except String String) (dpip : String) (p₁ p₂ : String)
    (stdin3 : List String) :
    (stageNotInstalled instPath exe p₁ mR [] dpip stdin3).1.filter isStream
      = (stageNotInstalled instPath exe p₂ mR [] dpip stdin3).1.filter isStream ∧
    (stageNotInstalled instPath exe p₁ mR [] dpip stdin3).2
      = (stageNotInstalled instPath exe p₂ mR [] dpip stdin3).2 := by
  cases stdin3 with
  | nil => exact ⟨rfl, rfl⟩
  | cons arch rest =>
    cases mR with
    | error m => exact ⟨rfl, rfl⟩
    | ok mbody =>
      cases rest with
      | nil => exact ⟨rfl, rfl⟩
      | cons u rest2 =>
        rcases hF1 : stageFinal false instPath exe u p₁ dpip rest2 with ⟨evsF1, c1⟩
        rcases hF2 : stageFinal false instPath exe u p₂ dpip rest2 with ⟨evsF2, c2⟩
        have hfs := stageFinal_secret false instPath exe u dpip p₁ p₂ rest2
        rw [hF1, hF2] at hfs
        have hred1 : stageNotInstalled instPath exe p₁ (Except.ok mbody) [] dpip
            (arch :: u :: rest2)
            = (Event.promptEv "architecture" archPromptText ::
               Event.outLine "Downloading minio..." ::
               Event.touchEv (instPath ++ "/minio") 448 ::
               Event.netGet (minioUrl arch) ::
               Event.writeFileEv (instPath ++ "/minio") mbody ::
               Event.outLine " OK" ::
               Event.promptEv "minio_username" "Enter your new username for minio: " ::
               Event.promptEv "minio_password" "Enter your new password for minio: " ::
               evsF1, c1) := by
          simp [stageNotInstalled, inputLine, stepEvents, hF1]
        have hred2 : stageNotInstalled instPath exe p₂ (Except.ok mbody) [] dpip
            (arch :: u :: rest2)
            = (Event.promptEv "architecture" archPromptText ::
               Event.outLine "Downloading minio..." ::
               Event.touchEv (instPath ++ "/minio") 448 ::
               Event.netGet (minioUrl arch) ::
               Event.writeFileEv (instPath ++ "/minio") mbody ::
               Event.outLine " OK" ::
               Event.promptEv "minio_username" "Enter your new username for minio: " ::
               Event.promptEv "minio_password" "Enter your new password for minio: " ::
               evsF2, c2) := by
          simp [stageNotInstalled, inputLine, stepEvents, hF2]
        rw [hred1, hred2]
        exact ⟨by simp [isStream, List.filter_cons, hfs.1], hfs.2⟩

/-- Stream noninterference of the whole tail in the secret. -/
theorem stageTail_secret (instPath exe : String)
    (ipR mR : Except String String) (p₁ p₂ : String) (stdin2 : List String) :
    (stageTail instPath exe p₁ ipR mR [] stdin2).1.filter isStream
      = (stageTail instPath exe p₂ ipR mR [] stdin2).1.filter isStream ∧
    (stageTail instPath exe p₁ ipR mR [] stdin2).2
      = (stageTail instPath exe p₂ ipR mR [] stdin2).2 := by
  rcases hYN : yes_or_no_question "is_minio_installed"
    "Have you installed minio and started it already?" stdin2 with ⟨evsM, r⟩
  cases r with
  | none =>
    have h1 : stageTail instPath exe p₁ ipR mR [] stdin2 = (evsM, 1) := by
      simp [stageTail, hYN]
    have h2 : stageTail instPath exe p₂ ipR mR [] stdin2 = (evsM, 1) := by
      simp [stageTail, hYN]
    rw [h1, h2]
    exact ⟨rfl, rfl⟩
  | some br =>
    rcases br with ⟨b, stdin3⟩
    cases ipR with
    | error m =>
      have h1 : stageTail instPath exe p₁ (Except.error m) mR [] stdin2
          = (evsM ++ [Event.outLine "Getting your public ip address...",
              Event.netGet "https://checkip.amazonaws.com",
              Event.errLine (" ERROR: e=" ++ m)], 1) := by
        simp [stageTail, hYN, stepEvents]
      have h2 : stageTail instPath exe p₂ (Except.error m) mR [] stdin2
          = (evsM ++ [Event.outLine "Getting your public ip address...",
              Event.netGet "https://checkip.amazonaws.com",
              Event.errLine (" ERROR: e=" ++ m)], 1) := by
        simp [stageTail, hYN, stepEvents]
      rw [h1, h2]
      exact ⟨rfl, rfl⟩
    | ok body =>
      cases b with
      | true =>
        rw [stageTail_installed instPath exe p₁ mR evsM stdin2 stdin3 body hYN,
          stageTail_installed instPath exe p₂ mR evsM stdin2 stdin3 body hYN]
        exact ⟨rfl, rfl⟩
      | false =>
        rw [stageTail_notInstalled instPath exe p₁ mR evsM stdin2 stdin3 body hYN,
          stageTail_notInstalled instPath exe p₂ mR evsM stdin2 stdin3 body hYN]
        have hns := stageNotInstalled_secret instPath exe mR (dropLastStr body) p₁ p₂ stdin3
        exact ⟨by simp [List.filter_append, List.filter_cons, isStream, hns.1], hns.2⟩

/-- Stream noninterference of the whole program in the secret read by
`getpass`: the operator-visible streams and the exit status are the same for
any two secrets. -/
theorem runCore_secret (vo pl : Bool) (home : String) (abs2 : String → String)
    (pe : String → Bool) (g r m : String → Nat) (exe : String)
    (ipR mR : Except String String) (p₁ p₂ : String) (stdin : List String) :
    (runCore vo pl home abs2 pe g r m exe ipR mR p₁ stdin).1.filter isStream
      = (runCore vo pl home abs2 pe g r m exe ipR mR p₂ stdin).1.filter isStream ∧
    (runCore vo pl home abs2 pe g r m exe ipR mR p₁ stdin).2
      = (runCore vo pl home abs2 pe g r m exe ipR mR p₂ stdin).2 := by
  cases vo with
  | false => refine ⟨?_, ?_⟩ <;> simp [runCore]
  | true =>
  cases pl with
  | false => refine ⟨?_, ?_⟩ <;> simp [runCore]
  | true =>
  rcases hyn : yes_or_no_question "use_ssh" "Use ssh for git clone?" stdin with ⟨evsS, rr⟩
  cases rr with
  | none => refine ⟨?_, ?_⟩ <;> simp [runCore, hyn]
  | some sr =>
  rcases sr with ⟨use_ssh, rest⟩
  cases rest with
  | nil => refine ⟨?_, ?_⟩ <;> simp [runCore, hyn, input_with_default, inputLine]
  | cons line rest2 =>
  by_cases hex : pe (abs2 (if line = "" then abs2 (home ++ "/.vcc") else line)) = true
  · refine ⟨?_, ?_⟩ <;> simp [runCore, hyn, input_with_default, inputLine, hex]
  · have hex2 : pe (abs2 (if line = "" then abs2 (home ++ "/.vcc") else line)) = false := by
      revert hex
      cases pe (abs2 (if line = "" then abs2 (home ++ "/.vcc") else line)) <;> simp
    rcases hsteps : stageSteps exe use_ssh g r m with ⟨evsT, ok⟩
    cases ok with
    | false =>
      refine ⟨?_, ?_⟩ <;>
        simp [runCore, hyn, input_with_default, inputLine, hex2, hsteps]
    | true =>
      rcases ht1 : stageTail (abs2 (if line = "" then abs2 (home ++ "/.vcc") else line))
        exe p₁ ipR mR [] rest2 with ⟨e1, c1⟩
      rcases ht2 : stageTail (abs2 (if line = "" then abs2 (home ++ "/.vcc") else line))
        exe p₂ ipR mR [] rest2 with ⟨e2, c2⟩
      have hts := stageTail_secret (abs2 (if line = "" then abs2 (home ++ "/.vcc") else line))
        exe ipR mR p₁ p₂ rest2
      rw [ht1, ht2] at hts
      have hr1 : runCore true true home abs2 pe g r m exe ipR mR p₁ stdin
          = (evsS ++
            Event.promptEv "install_path" ("Where do you want to install vcc? [" ++
              abs2 (home ++ "/.vcc") ++ "]: ") ::
            Event.mkdirEv (abs2 (if line = "" then abs2 (home ++ "/.vcc") else line)) 448 ::
            Event.chdirEv (abs2 (if line = "" then abs2 (home ++ "/.vcc") else line)) ::
            (evsT ++ e1), c1) := by
        simp [runCore, hyn, input_with_default, inputLine, hex2, hsteps, ht1]
      have hr2 : runCore true true home abs2 pe g r m exe ipR mR p₂ stdin
          = (evsS ++
            Event.promptEv "install_path" ("Where do you want to install vcc? [" ++
              abs2 (home ++ "/.vcc") ++ "]: ") ::
            Event.mkdirEv (abs2 (if line = "" then abs2 (home ++ "/.vcc") else line)) 448 ::
            Event.chdirEv (abs2 (if line = "" then abs2 (home ++ "/.vcc") else line)) ::
            (evsT ++ e2), c2) := by
        simp [runCore, hyn, input_with_default, inputLine, hex2, hsteps, ht2]
      rw [hr1, hr2]
      exact ⟨by simp [List.filter_append, List.filter_cons, isStream, hts.1], hts.2⟩

/-- C6: the storage password read by the secret prompt is never written to
the standard output or error streams — the operator-visible stream events
and the exit status are identical for any two secret values — and in every
completing provisioning run it is embedded, via the `MINIO_PASSWORD` key, in
the configuration document written at the end of the run. -/
theorem c6_secret_handling :
    (∀ (w : World) (p₁ p₂ : String),
      (run { w with secretLine := p₁ }).1.filter isStream
        = (run { w with secretLine := p₂ }).1.filter isStream ∧
      (run { w with secretLine := p₁ }).2 = (run { w with secretLine := p₂ }).2) ∧
    (∀ (w : World) (evsS evsM : Trace) (use_ssh : Bool)
      (line instPath arch body mbody user hostLine : String)
      (stdin2 stdin3 stdin4 stdin6 : List String),
      w.versionOk = true → w.platformLinux = true →
      yes_or_no_question "use_ssh" "Use ssh for git clone?" w.stdin
        = (evsS, some (use_ssh, line :: stdin2)) →
      instPath = w.resolveAbs
        (if line = "" then w.resolveAbs (w.home ++ "/.vcc") else line) →
      w.pathExists instPath = false →
      w.gitExit "vcc_rpc" = 0 → w.pipReqExit "vcc_rpc/requirements.txt" = 0 →
      w.gitExit "web-vcc" = 0 → w.pipReqExit "web-vcc/backend/requirements.txt" = 0 →
      w.pipModExit "supervisor" = 0 →
      yes_or_no_question "is_minio_installed"
        "Have you installed minio and started it already?" stdin2
        = (evsM, some (false, stdin3)) →
      w.ipResult = Except.ok body →
      stdin3 = arch :: stdin4 →
      w.minioResult = Except.ok mbody →
      stdin4 = user :: hostLine :: stdin6 →
      ∃ doc,
        formatMapToks (fullTemplate false)
          (substMap user w.secretLine
            (if hostLine = "" then dropLastStr body else hostLine) w.executable)
          = some doc ∧
        Event.writeFileEv (instPath ++ "/supervisord.conf") doc ∈ (run w).1) := by
  constructor
  · intro w p₁ p₂
    have e1 : run { w with secretLine := p₁ }
        = runCore w.versionOk w.platformLinux w.home w.resolveAbs w.pathExists
          w.gitExit w.pipReqExit w.pipModExit w.executable w.ipResult w.minioResult
          p₁ w.stdin := rfl
    have e2 : run { w with secretLine := p₂ }
        = runCore w.versionOk w.platformLinux w.home w.resolveAbs w.pathExists
          w.gitExit w.pipReqExit w.pipModExit w.executable w.ipResult w.minioResult
          p₂ w.stdin := rfl
    rw [e1, e2]
    exact runCore_secret w.versionOk w.platformLinux w.home w.resolveAbs w.pathExists
      w.gitExit w.pipReqExit w.pipModExit w.executable w.ipResult w.minioResult p₁ p₂ w.stdin
  · intro w evsS evsM use_ssh line instPath arch body mbody user hostLine
      stdin2 stdin3 stdin4 stdin6 hv hp hyn hip hex hg1 hr1 hg2 hr2 hm hynM hipres
      harch hmin husr
    subst harch
    subst husr
    obtain ⟨doc, hdoc⟩ := formatMapToks_fullTemplate false user w.secretLine
      (if hostLine = "" then dropLastStr body else hostLine) w.executable
    have hrt := run_reaches_tail w evsS use_ssh line instPath stdin2 hv hp hyn hip hex
      hg1 hr1 hg2 hr2 hm
    rw [hipres, stageTail_notInstalled instPath w.executable w.secretLine w.minioResult
      evsM stdin2 (arch :: user :: hostLine :: stdin6) body hynM, hmin] at hrt
    have hred : stageNotInstalled instPath w.executable w.secretLine (Except.ok mbody) []
        (dropLastStr body) (arch :: user :: hostLine :: stdin6)
        = (Event.promptEv "architecture" archPromptText ::
           Event.outLine "Downloading minio..." ::
           Event.touchEv (instPath ++ "/minio") 448 ::
           Event.netGet (minioUrl arch) ::
           Event.writeFileEv (instPath ++ "/minio") mbody ::
           Event.outLine " OK" ::
           Event.promptEv "minio_username" "Enter your new username for minio: " ::
           Event.promptEv "minio_password" "Enter your new password for minio: " ::
           (stageFinal false instPath w.executable user w.secretLine (dropLastStr body)
             (hostLine :: stdin6)).1,
           (stageFinal false instPath w.executable user w.secretLine (dropLastStr body)
             (hostLine :: stdin6)).2) := by
      rcases hF : stageFinal false instPath w.executable user w.secretLine
        (dropLastStr body) (hostLine :: stdin6) with ⟨evsF, cF⟩
      simp [stageNotInstalled, inputLine, stepEvents, hF]
    rw [hred, stageFinal_complete false instPath w.executable user w.secretLine
      (dropLastStr body) hostLine stdin6 doc hdoc] at hrt
    refine ⟨doc, hdoc, ?_⟩
    rw [hrt]
    simp only [List.mem_append, List.mem_cons]
    tauto

/-- C6, witness: stream equality under two secrets, and the secret's
placement in the written document, at a concrete provisioning run. -/
theorem c6_witness :
    ((run { wDemoDownload with secretLine := "hunter2" }).1.filter isStream
      = (run { wDemoDownload with secretLine := "swordfish" }).1.filter isStream) ∧
    ∃ doc,
      formatMapToks (fullTemplate false)
        (substMap "admin" wDemoDownload.secretLine
          (if "" = "" then dropLastStr "1.2.3.4\n" else "") wDemoDownload.executable)
        = some doc ∧
      Event.writeFileEv ("/root/.vcc" ++ "/supervisord.conf") doc ∈ (run wDemoDownload).1 :=
  ⟨(c6_secret_handling.1 wDemoDownload "hunter2" "swordfish").1,
   c6_secret_handling.2 wDemoDownload
     [Event.promptEv "use_ssh" "Use ssh for git clone? (y/N): "]
     [Event.promptEv "is_minio_installed"
       "Have you installed minio and started it already? (y/N): "]
     true "" "/root/.vcc" "amd64" "1.2.3.4\n" "B" "admin" ""
     ["n", "amd64", "admin", ""] ["amd64", "admin", ""] ["admin", ""] []
     rfl rfl (by decide) (by decide) rfl rfl rfl rfl rfl rfl (by decide) rfl rfl rfl rfl⟩
